import Mathlib

/-!
# FramelessHelper: hit-testing, pixel conversion and window-centering utilities

A shallow embedding of `src/core/utils.cpp` (namespace `Utils`) and of the
per-window record declared in `winnativeeventfilter.h`, followed by theorems
about the embedded functions.

Conventions of the embedding:

* C++ `int` is `Int`.  The integer arithmetic of the hit tests and of the
  window centering (`w - k`, `newX + offset.x()`, ...) is exact as long as no
  signed overflow occurs; signed overflow is undefined behaviour in C++ and
  is outside the model there.
* `qreal` is a double: a value is the rational it denotes, and every
  floating-point operation of the pixel conversions and of the scale-factor
  rounding is followed by `roundToDouble`, the rounding to the nearest
  double (ties to even).  The conversion `qreal(int)` is exact.  Infinities,
  NaN and division by zero are not modelled: a device pixel ratio is a
  finite positive double.  The conversion `int(double)` of a value outside
  the range of `int`, undefined in C++, yields `INT_MIN` as on x86-64
  (`toInt32`).
* In `moveWindowToDesktopCenter` the argument of `qRound` is half of an
  integer, for which double arithmetic is exact; `qRound` is the reading of
  the toolkit function for that case.
* Preprocessor switches are the fields of `Build`; a function guarded by
  `#ifdef` branches on the corresponding field.
* `Q_ASSERT` aborts the program in a debug build and is a no-op in a release
  build (`QT_NO_DEBUG`).  Every embedded function that contains an assertion
  therefore returns an `Option`: `none` is "aborted by a failed assertion",
  `some r` is "returned `r`".
* A nullable pointer is an `Option`; a null `std::function` is `none`.
-/

namespace FramelessHelper

/-! ## Build configuration -/

/-- The preprocessor switches the embedded code branches on.
`QT_VERSION` is encoded as `QT_VERSION_CHECK` does: `major * 65536 + minor * 256 + patch`. -/
structure Build where
  Q_OS_MACOS : Bool
  Q_OS_WINDOWS : Bool
  QT_NO_DEBUG : Bool
  FRAMELESSHELPER_CORE_NO_PRIVATE : Bool
  FRAMELESSHELPER_CORE_NO_BUNDLE_RESOURCE : Bool
  QT_VERSION : Nat
  deriving DecidableEq, Repr

/-- The value of `QT_VERSION_CHECK(major, minor, patch)`. -/
def QT_VERSION_CHECK (major minor patch : Nat) : Nat :=
  major * 65536 + minor * 256 + patch

/-- The assertion `Q_ASSERT(cond)`: aborts (`none`) in a debug build when `cond` is false,
does nothing otherwise. -/
def Q_ASSERT (b : Build) (cond : Bool) : Option Unit :=
  if b.QT_NO_DEBUG || cond then some () else none

/-! ## Toolkit value types -/

/-- The cursor shapes of `Qt::CursorShape` that the code returns. -/
inductive CursorShape where
  | ArrowCursor
  | SizeVerCursor
  | SizeHorCursor
  | SizeBDiagCursor
  | SizeFDiagCursor
  deriving DecidableEq, Repr

/-- The enumeration `QWindow::Visibility`. -/
inductive Visibility where
  | Hidden
  | AutomaticVisibility
  | Windowed
  | Minimized
  | Maximized
  | FullScreen
  deriving DecidableEq, Repr

/-- A point `QPoint`; default-constructed it is `(0, 0)`. -/
structure QPoint where
  x : Int := 0
  y : Int := 0
  deriving DecidableEq, Repr

/-- A size `QSize`; default-constructed it is the invalid size `(-1, -1)`. -/
structure QSize where
  width : Int := -1
  height : Int := -1
  deriving DecidableEq, Repr

/-- The test `QSize::isEmpty()`: either dimension is less than one. -/
def QSize.isEmpty (s : QSize) : Bool :=
  decide (s.width < 1) || decide (s.height < 1)

/-- A rectangle `QRect`, stored as Qt stores it, by its two corners; default-constructed it
is the null rectangle `(0, 0, -1, -1)`. -/
structure QRect where
  x1 : Int := 0
  y1 : Int := 0
  x2 : Int := -1
  y2 : Int := -1
  deriving DecidableEq, Repr

/-- The corner `QRect::topLeft()`. -/
def QRect.topLeft (r : QRect) : QPoint := { x := r.x1, y := r.y1 }

/-- The size `QRect::size()`. -/
def QRect.size (r : QRect) : QSize :=
  { width := r.x2 - r.x1 + 1, height := r.y2 - r.y1 + 1 }

/-- The constructor `QRect(const QPoint &topLeft, const QSize &size)`. -/
def QRect.ofTopLeftSize (p : QPoint) (s : QSize) : QRect :=
  { x1 := p.x, y1 := p.y, x2 := p.x + s.width - 1, y2 := p.y + s.height - 1 }

/-- What the embedded code reads from a `QWindow`: its visibility, its size in
device-independent pixels, its device pixel ratio (a finite positive double, as the rational
it denotes), whether it has a platform window (`handle()`), and its window id. -/
structure QWindow where
  visibility : Visibility
  width : Int
  height : Int
  devicePixelRatio : ℚ
  handle : Bool
  winId : Nat
  deriving DecidableEq

/-! ## Edge flags (`Qt::Edges`) -/

/-- The flag `Qt::TopEdge = 0x1`. -/
def TopEdge : Nat := 1
/-- The flag `Qt::LeftEdge = 0x2`. -/
def LeftEdge : Nat := 2
/-- The flag `Qt::RightEdge = 0x4`. -/
def RightEdge : Nat := 4
/-- The flag `Qt::BottomEdge = 0x8`. -/
def BottomEdge : Nat := 8

/-- The test `QFlags::testFlag`. -/
def testFlag (flags flag : Nat) : Bool :=
  (flags &&& flag) == flag && (flag != 0 || flags == flag)

/-! ## Hit testing -/

/-- The function `Utils::calculateCursorShape`.  The constant `kDefaultResizeBorderThickness`
is declared in a header outside the sources at hand and is the parameter `k`. -/
def calculateCursorShape (b : Build) (k : Int) (window : Option QWindow) (pos : QPoint) :
    Option CursorShape :=
  if b.Q_OS_MACOS then
    some CursorShape.ArrowCursor
  else
    (Q_ASSERT b window.isSome).bind fun _ =>
      match window with
      | none => some CursorShape.ArrowCursor
      | some win =>
        if win.visibility ≠ Visibility.Windowed then
          some CursorShape.ArrowCursor
        else
          let x := pos.x
          let y := pos.y
          let w := win.width
          let h := win.height
          if ((x < k) ∧ (y < k)) ∨ ((x ≥ (w - k)) ∧ (y ≥ (h - k))) then
            some CursorShape.SizeFDiagCursor
          else if ((x ≥ (w - k)) ∧ (y < k)) ∨ ((x < k) ∧ (y ≥ (h - k))) then
            some CursorShape.SizeBDiagCursor
          else if (x < k) ∨ (x ≥ (w - k)) then
            some CursorShape.SizeHorCursor
          else if (y < k) ∨ (y ≥ (h - k)) then
            some CursorShape.SizeVerCursor
          else
            some CursorShape.ArrowCursor

/-- The function `Utils::calculateWindowEdges`; `k` is `kDefaultResizeBorderThickness`. -/
def calculateWindowEdges (b : Build) (k : Int) (window : Option QWindow) (pos : QPoint) :
    Option Nat :=
  if b.Q_OS_MACOS then
    some 0
  else
    (Q_ASSERT b window.isSome).bind fun _ =>
      match window with
      | none => some 0
      | some win =>
        if win.visibility ≠ Visibility.Windowed then
          some 0
        else
          let edges : Nat := 0
          let x := pos.x
          let y := pos.y
          let edges := if x < k then edges ||| LeftEdge else edges
          let edges := if x ≥ (win.width - k) then edges ||| RightEdge else edges
          let edges := if y < k then edges ||| TopEdge else edges
          let edges := if y ≥ (win.height - k) then edges ||| BottomEdge else edges
          some edges

/-! ## Rounding in exact arithmetic (`qRound`) -/

/-- The C++ conversion `int(d)` of a `qreal`: truncation towards zero. -/
def qrealToInt (d : ℚ) : Int :=
  if 0 ≤ d then ⌊d⌋ else ⌈d⌉

/-- The toolkit function `qRound(double)` where the additions it performs are exact (its
argument is half of an integer of moderate size, as in `moveWindowToDesktopCenter`).  Qt 6
defines it as `d >= 0.0 ? int(d + 0.5) : int(d - 0.5)`; Qt 5 as
`d >= 0.0 ? int(d + 0.5) : int(d - double(int(d-1)) + 0.5) + int(d-1)`.
The two differ only in the direction a negative tie is rounded.  For an arbitrary double see
`qRoundDouble`. -/
def qRound (b : Build) (d : ℚ) : Int :=
  if b.QT_VERSION ≥ QT_VERSION_CHECK 6 0 0 then
    if d ≥ 0 then qrealToInt (d + 1 / 2) else qrealToInt (d - 1 / 2)
  else
    if d ≥ 0 then qrealToInt (d + 1 / 2)
    else qrealToInt (d - ((qrealToInt (d - 1) : Int) : ℚ) + 1 / 2) + qrealToInt (d - 1)

/-! ## Double-precision arithmetic -/

/-- Rounding of a rational to the nearest integer, a tie going to the even neighbour. -/
def roundHalfEven (q : ℚ) : Int :=
  if q - ⌊q⌋ < 1 / 2 then ⌊q⌋
  else if q - ⌊q⌋ > 1 / 2 then ⌊q⌋ + 1
  else if ⌊q⌋ % 2 = 0 then ⌊q⌋ else ⌊q⌋ + 1

/-- The exponent of the unit in the last place of a double of the magnitude of `q`: 52 below
the binary exponent of `q`, which is at least `-1022` (the subnormal range). -/
def ulpExponent (q : ℚ) : Int :=
  max (Int.log 2 |q|) (-1022) - 52

/-- The double nearest to `q` (IEEE 754 binary64, round to nearest, ties to even), as the
rational it denotes.  Overflow to infinity is not modelled. -/
def roundToDouble (q : ℚ) : ℚ :=
  (roundHalfEven (q / 2 ^ ulpExponent q) : ℚ) * 2 ^ ulpExponent q

/-- The rational `q` is (the value of) a double. -/
def isDouble (q : ℚ) : Prop := roundToDouble q = q

instance (q : ℚ) : Decidable (isDouble q) := by
  unfold isDouble; infer_instance

/-- The C++ conversion `int(d)` of a double to a 32-bit `int`: truncation towards zero; for
a value outside the range of `int` the conversion is undefined in C++ and yields `INT_MIN`,
as the x86-64 conversion instruction does. -/
def toInt32 (d : ℚ) : Int :=
  let t : Int := if 0 ≤ d then ⌊d⌋ else ⌈d⌉
  if -2147483648 ≤ t ∧ t ≤ 2147483647 then t else -2147483648

/-- The value of an integer result as a 32-bit `int` (two's complement wrap-around). -/
def wrapInt32 (n : Int) : Int :=
  (n + 2147483648) % 4294967296 - 2147483648

/-- The toolkit function `qRound(double)` on an arbitrary double, each addition and
subtraction rounded to a double and each `int(...)` a 32-bit conversion.  Qt 6 defines it as
`d >= 0.0 ? int(d + 0.5) : int(d - 0.5)`; Qt 5 as
`d >= 0.0 ? int(d + 0.5) : int(d - double(int(d-1)) + 0.5) + int(d-1)`. -/
def qRoundDouble (b : Build) (d : ℚ) : Int :=
  if b.QT_VERSION ≥ QT_VERSION_CHECK 6 0 0 then
    if d ≥ 0 then toInt32 (roundToDouble (d + 1 / 2))
    else toInt32 (roundToDouble (d - 1 / 2))
  else
    if d ≥ 0 then toInt32 (roundToDouble (d + 1 / 2))
    else
      wrapInt32
        (toInt32 (roundToDouble
            (roundToDouble (d - ((toInt32 (roundToDouble (d - 1)) : Int) : ℚ)) + 1 / 2))
          + toInt32 (roundToDouble (d - 1)))

/-- The toolkit function `qCeil`: `int(std::ceil(v))`. -/
def qCeil (v : ℚ) : Int := toInt32 ((⌈v⌉ : Int) : ℚ)

/-- The toolkit function `qFloor`: `int(std::floor(v))`. -/
def qFloor (v : ℚ) : Int := toInt32 ((⌊v⌋ : Int) : ℚ)

/-! ## Pixel conversion -/

/-- The functions of the toolkit's private high-DPI interface (`QHighDpi`,
`QHighDpiScaling`) that the code calls when it is built with the private headers.  They are
not part of the sources at hand and are parameters of the embedding. -/
structure QHighDpi where
  toNativePixelsInt : Int → QWindow → Int
  toNativePixelsPoint : QPoint → QWindow → QPoint
  toNativePixelsSize : QSize → QWindow → QSize
  toNativePixelsRect : QRect → QWindow → QRect
  fromNativePixelsInt : Int → QWindow → Int
  fromNativePixelsPoint : QPoint → QWindow → QPoint
  fromNativePixelsSize : QSize → QWindow → QSize
  fromNativePixelsRect : QRect → QWindow → QRect
  roundScaleFactor : ℚ → ℚ

/-- The enumeration `Qt::HighDpiScaleFactorRoundingPolicy`. -/
inductive HighDpiScaleFactorRoundingPolicy where
  | Unset
  | Round
  | Ceil
  | Floor
  | RoundPreferFloor
  | PassThrough
  deriving DecidableEq, Repr

/-- The function `Utils::roundScaleFactor`; `policy` is the value of
`QGuiApplication::highDpiScaleFactorRoundingPolicy()`. -/
def roundScaleFactor (b : Build) (hd : QHighDpi) (policy : HighDpiScaleFactorRoundingPolicy)
    (factor : ℚ) : Option ℚ :=
  (Q_ASSERT b (decide (factor > 0))).bind fun _ =>
    if factor ≤ 0 then
      some 1
    else if b.FRAMELESSHELPER_CORE_NO_PRIVATE then
      if b.QT_VERSION ≥ QT_VERSION_CHECK 5 14 0 then
        match policy with
        | HighDpiScaleFactorRoundingPolicy.Unset =>
          if b.QT_VERSION ≥ QT_VERSION_CHECK 6 0 0 then some factor
          else some ((qRoundDouble b factor : Int) : ℚ)
        | HighDpiScaleFactorRoundingPolicy.Round => some ((qRoundDouble b factor : Int) : ℚ)
        | HighDpiScaleFactorRoundingPolicy.Ceil => some ((qCeil factor : Int) : ℚ)
        | HighDpiScaleFactorRoundingPolicy.Floor => some ((qFloor factor : Int) : ℚ)
        | HighDpiScaleFactorRoundingPolicy.RoundPreferFloor =>
          if roundToDouble (factor - ((toInt32 factor : Int) : ℚ)) ≥ 3 / 4 then
            some ((qRoundDouble b factor : Int) : ℚ)
          else
            some ((qFloor factor : Int) : ℚ)
        | HighDpiScaleFactorRoundingPolicy.PassThrough => some factor
      else
        some ((qRoundDouble b factor : Int) : ℚ)
    else
      some (hd.roundScaleFactor factor)

/-- The overload `int Utils::toNativePixels(const QWindow *, int)`. -/
def toNativePixels (b : Build) (hd : QHighDpi) (window : Option QWindow) (value : Int) :
    Option Int :=
  (Q_ASSERT b window.isSome).bind fun _ =>
    match window with
    | none => some 0
    | some win =>
      if b.FRAMELESSHELPER_CORE_NO_PRIVATE then
        some (qRoundDouble b (roundToDouble ((value : ℚ) * win.devicePixelRatio)))
      else
        some (hd.toNativePixelsInt value win)

/-- The overload `QPoint Utils::toNativePixels(const QWindow *, const QPoint &)`;
`QPointF::toPoint()` rounds each coordinate with `qRound`. -/
def toNativePixelsPoint (b : Build) (hd : QHighDpi) (window : Option QWindow) (point : QPoint) :
    Option QPoint :=
  (Q_ASSERT b window.isSome).bind fun _ =>
    match window with
    | none => some {}
    | some win =>
      if b.FRAMELESSHELPER_CORE_NO_PRIVATE then
        some { x := qRoundDouble b (roundToDouble ((point.x : ℚ) * win.devicePixelRatio)),
               y := qRoundDouble b (roundToDouble ((point.y : ℚ) * win.devicePixelRatio)) }
      else
        some (hd.toNativePixelsPoint point win)

/-- The overload `QSize Utils::toNativePixels(const QWindow *, const QSize &)`;
`QSizeF::toSize()` rounds each dimension with `qRound`. -/
def toNativePixelsSize (b : Build) (hd : QHighDpi) (window : Option QWindow) (size : QSize) :
    Option QSize :=
  (Q_ASSERT b window.isSome).bind fun _ =>
    match window with
    | none => some {}
    | some win =>
      if b.FRAMELESSHELPER_CORE_NO_PRIVATE then
        some { width := qRoundDouble b (roundToDouble ((size.width : ℚ) * win.devicePixelRatio)),
               height := qRoundDouble b (roundToDouble ((size.height : ℚ) * win.devicePixelRatio)) }
      else
        some (hd.toNativePixelsSize size win)

/-- The overload `QRect Utils::toNativePixels(const QWindow *, const QRect &)`. -/
def toNativePixelsRect (b : Build) (hd : QHighDpi) (window : Option QWindow) (rect : QRect) :
    Option QRect :=
  (Q_ASSERT b window.isSome).bind fun _ =>
    match window with
    | none => some {}
    | some win =>
      if b.FRAMELESSHELPER_CORE_NO_PRIVATE then
        (toNativePixelsPoint b hd window rect.topLeft).bind fun p =>
          (toNativePixelsSize b hd window rect.size).bind fun s =>
            some (QRect.ofTopLeftSize p s)
      else
        some (hd.toNativePixelsRect rect win)

/-- The overload `int Utils::fromNativePixels(const QWindow *, int)`. -/
def fromNativePixels (b : Build) (hd : QHighDpi) (window : Option QWindow) (value : Int) :
    Option Int :=
  (Q_ASSERT b window.isSome).bind fun _ =>
    match window with
    | none => some 0
    | some win =>
      if b.FRAMELESSHELPER_CORE_NO_PRIVATE then
        some (qRoundDouble b (roundToDouble ((value : ℚ) / win.devicePixelRatio)))
      else
        some (hd.fromNativePixelsInt value win)

/-- The overload `QPoint Utils::fromNativePixels(const QWindow *, const QPoint &)`. -/
def fromNativePixelsPoint (b : Build) (hd : QHighDpi) (window : Option QWindow)
    (point : QPoint) : Option QPoint :=
  (Q_ASSERT b window.isSome).bind fun _ =>
    match window with
    | none => some {}
    | some win =>
      if b.FRAMELESSHELPER_CORE_NO_PRIVATE then
        some { x := qRoundDouble b (roundToDouble ((point.x : ℚ) / win.devicePixelRatio)),
               y := qRoundDouble b (roundToDouble ((point.y : ℚ) / win.devicePixelRatio)) }
      else
        some (hd.fromNativePixelsPoint point win)

/-- The overload `QSize Utils::fromNativePixels(const QWindow *, const QSize &)`. -/
def fromNativePixelsSize (b : Build) (hd : QHighDpi) (window : Option QWindow) (size : QSize) :
    Option QSize :=
  (Q_ASSERT b window.isSome).bind fun _ =>
    match window with
    | none => some {}
    | some win =>
      if b.FRAMELESSHELPER_CORE_NO_PRIVATE then
        some { width := qRoundDouble b (roundToDouble ((size.width : ℚ) / win.devicePixelRatio)),
               height := qRoundDouble b (roundToDouble ((size.height : ℚ) / win.devicePixelRatio)) }
      else
        some (hd.fromNativePixelsSize size win)

/-- The overload `QRect Utils::fromNativePixels(const QWindow *, const QRect &)`. -/
def fromNativePixelsRect (b : Build) (hd : QHighDpi) (window : Option QWindow) (rect : QRect) :
    Option QRect :=
  (Q_ASSERT b window.isSome).bind fun _ =>
    match window with
    | none => some {}
    | some win =>
      if b.FRAMELESSHELPER_CORE_NO_PRIVATE then
        (fromNativePixelsPoint b hd window rect.topLeft).bind fun p =>
          (fromNativePixelsSize b hd window rect.size).bind fun s =>
            some (QRect.ofTopLeftSize p s)
      else
        some (hd.fromNativePixelsRect rect win)

/-! ## Window lookup and event classification -/

/-- The function `Utils::findWindow`; `topLevelWindows` is the value of
`QGuiApplication::topLevelWindows()` (a list of possibly null window pointers) and a window
id `WId` is an unsigned integer.  The result is the window found, or `none` for `nullptr`. -/
def findWindow (b : Build) (topLevelWindows : List (Option QWindow)) (windowId : Nat) :
    Option (Option QWindow) :=
  (Q_ASSERT b (windowId != 0)).bind fun _ =>
    if windowId = 0 then
      some none
    else if topLevelWindows.isEmpty then
      some none
    else
      some (topLevelWindows.findSome? fun window =>
        match window with
        | none => none
        | some win => if win.handle && win.winId == windowId then some win else none)

/-- The event types of `QEvent::Type` that the code distinguishes; every other type is
`Other` with its numeric code. -/
inductive QEventType where
  | ThemeChange
  | ApplicationPaletteChange
  | Paint
  | WindowStateChange
  | Move
  | Resize
  | Other (code : Nat)
  deriving DecidableEq, Repr

/-- The function `Utils::isThemeChangeEvent`; the event is given by its type, `none` being the
null pointer. -/
def isThemeChangeEvent (b : Build) (event : Option QEventType) : Option Bool :=
  (Q_ASSERT b event.isSome).bind fun _ =>
    match event with
    | none => some false
    | some type =>
      some (type == QEventType.ThemeChange || type == QEventType.ApplicationPaletteChange)

/-! ## System button icons -/

/-- The record `FONT_ICON`: the code points of one icon in the two icon fonts. -/
structure FONT_ICON where
  segoe : Nat := 0
  micon : Nat := 0
  deriving DecidableEq, Repr

/-- The numeric values of the enumerators of `Global::SystemButtonType`.  The enumeration is
declared in a header outside the sources at hand, so the values are parameters. -/
structure SystemButtonType where
  Unknown : Int
  WindowIcon : Int
  Help : Int
  Minimize : Int
  Maximize : Int
  Restore : Int
  Close : Int
  deriving DecidableEq, Repr

/-- The enumerators of a `SystemButtonType` are pairwise different. -/
def SystemButtonType.distinct (t : SystemButtonType) : Prop :=
  [t.Unknown, t.WindowIcon, t.Help, t.Minimize, t.Maximize, t.Restore, t.Close].Nodup

instance (t : SystemButtonType) : Decidable t.distinct := by
  unfold SystemButtonType.distinct; infer_instance

/-- A hash `QHash<int, FONT_ICON>` as an association list, most recent insertion first. -/
abbrev FontIconHash := List (Int × FONT_ICON)

/-- The member `QHash::insert`: a later value for a key replaces the earlier one. -/
def FontIconHash.insert (h : FontIconHash) (key : Int) (value : FONT_ICON) : FontIconHash :=
  (key, value) :: h.filter fun e => e.1 ≠ key

/-- The constructor of `QHash` from an initializer list: the pairs are inserted in order. -/
def FontIconHash.ofList (l : List (Int × FONT_ICON)) : FontIconHash :=
  l.foldl (fun h e => FontIconHash.insert h e.1 e.2) []

/-- The stored value for a key, if any. -/
def FontIconHash.find (h : FontIconHash) (key : Int) : Option FONT_ICON :=
  (List.find? (fun e => e.1 == key) h).map Prod.snd

/-- The member `QHash::contains`. -/
def FontIconHash.contains (h : FontIconHash) (key : Int) : Bool :=
  (FontIconHash.find h key).isSome

/-- The member `QHash::value`: the stored value, or a default-constructed one. -/
def FontIconHash.value (h : FontIconHash) (key : Int) : FONT_ICON :=
  (FontIconHash.find h key).getD {}

/-- The table `g_fontIconsTable`.  It is compiled only when the icon font is bundled; in a
`FRAMELESSHELPER_CORE_NO_BUNDLE_RESOURCE` build there is no table, hence no entry. -/
def g_fontIconsTable (b : Build) (t : SystemButtonType) : FontIconHash :=
  if b.FRAMELESSHELPER_CORE_NO_BUNDLE_RESOURCE then
    []
  else
    FontIconHash.ofList
      [ (t.Unknown, { segoe := 0x0000, micon := 0x0000 }),
        (t.WindowIcon, { segoe := 0xE756, micon := 0xEB06 }),
        (t.Help, { segoe := 0xE897, micon := 0xEC04 }),
        (t.Minimize, { segoe := 0xE921, micon := 0xEAE0 }),
        (t.Maximize, { segoe := 0xE922, micon := 0xEADE }),
        (t.Restore, { segoe := 0xE923, micon := 0xEAE2 }),
        (t.Close, { segoe := 0xE8BB, micon := 0xEADA }) ]

/-- The constructor `QChar(uint)`: the low sixteen bits of the code. -/
def QChar (rc : Nat) : Nat := rc % 65536

/-- The function `Utils::getSystemButtonIconCode`.  A `QString` is the list of its UTF-16
code units; `button` is the underlying integer of the enumeration value passed in, and
`isWin10OrGreater` the value of `WindowsVersionHelper::isWin10OrGreater()`. -/
def getSystemButtonIconCode (b : Build) (t : SystemButtonType) (isWin10OrGreater : Bool)
    (button : Int) : Option (List Nat) :=
  if b.FRAMELESSHELPER_CORE_NO_BUNDLE_RESOURCE then
    some []
  else
    let index := button
    if !(g_fontIconsTable b t).contains index then
      some []
    else
      let icon := (g_fontIconsTable b t).value index
      if b.Q_OS_WINDOWS && isWin10OrGreater then
        some [QChar icon.segoe]
      else
        some [QChar icon.micon]

/-! ## Centering a window on the desktop -/

/-- What the code reads from a `QScreen`. -/
structure QScreen where
  virtualSize : QSize
  availableVirtualSize : QSize
  availableVirtualGeometry : QRect
  deriving DecidableEq, Repr

/-- The function `Utils::moveWindowToDesktopCenter`, in state-passing style over the state
`σ` the callbacks act on.  A callback is `none` when the `std::function` is empty;
`kDefaultWindowSize` is declared in a header outside the sources at hand and is a parameter,
as is the value of `QGuiApplication::primaryScreen()`.  The result is the state after the
call. -/
def moveWindowToDesktopCenter {σ : Type} (b : Build) (kDefaultWindowSize : QSize)
    (primaryScreen : Option QScreen)
    (getWindowScreen : Option (σ → Option QScreen))
    (getWindowSize : Option (σ → QSize))
    (setWindowPosition : Option (QPoint → σ → σ))
    (considerTaskBar : Bool) (st : σ) : Option σ :=
  (Q_ASSERT b getWindowScreen.isSome).bind fun _ =>
  (Q_ASSERT b getWindowSize.isSome).bind fun _ =>
  (Q_ASSERT b setWindowPosition.isSome).bind fun _ =>
    match getWindowScreen, getWindowSize, setWindowPosition with
    | some getScreen, some getSize, some setPosition =>
      let windowSize := getSize st
      if windowSize.isEmpty || windowSize == kDefaultWindowSize then
        some st
      else
        let screen := match getScreen st with
          | some s => some s
          | none => primaryScreen
        (Q_ASSERT b screen.isSome).bind fun _ =>
          match screen with
          | none => some st
          | some scr =>
            let screenSize :=
              if considerTaskBar then scr.availableVirtualSize else scr.virtualSize
            let offset : QPoint :=
              if considerTaskBar then scr.availableVirtualGeometry.topLeft
              else { x := 0, y := 0 }
            let newX := qRound b (((screenSize.width - windowSize.width : Int) : ℚ) / 2)
            let newY := qRound b (((screenSize.height - windowSize.height : Int) : ℚ) / 2)
            some (setPosition { x := newX + offset.x, y := newY + offset.y } st)
    | _, _, _ => some st

/-! ## The per-window record of the native event filter -/

/-- The record `WinNativeEventFilter::WINDOW` with its default member initialisers.  A
`QPointer<QObject>` is the identity of the object it tracks, `none` when it is null. -/
structure WINDOW where
  initialized : Bool := false
  fixedSize : Bool := false
  mouseTransparent : Bool := false
  restoreDefaultWindowStyle : Bool := false
  enableLayeredWindow : Bool := false
  disableTitleBar : Bool := false
  borderWidth : Int := -1
  borderHeight : Int := -1
  titleBarHeight : Int := -1
  ignoreAreas : List QRect := []
  draggableAreas : List QRect := []
  ignoreObjects : List (Option Nat) := []
  draggableObjects : List (Option Nat) := []
  maximumSize : QSize := {}
  minimumSize : QSize := {}
  deriving DecidableEq, Repr

/-! ## Window states (`Qt::WindowState`, `Qt::WindowStates`) -/

/-- The enumeration `Qt::WindowState`. -/
inductive WindowState where
  | WindowNoState
  | WindowMinimized
  | WindowMaximized
  | WindowFullScreen
  | WindowActive
  deriving DecidableEq, Repr

/-- The numeric value of a `Qt::WindowState`, which is also its conversion to the flag set
`Qt::WindowStates`: `0x0`, `0x1`, `0x2`, `0x4`, `0x8`. -/
def WindowState.toFlags : WindowState → Nat
  | WindowState.WindowNoState => 0
  | WindowState.WindowMinimized => 1
  | WindowState.WindowMaximized => 2
  | WindowState.WindowFullScreen => 4
  | WindowState.WindowActive => 8

/-- The function `Utils::windowStatesToWindowState`; a flag set `Qt::WindowStates` is the
natural number of its bits, and `states & flag` is true when it is non-zero. -/
def windowStatesToWindowState (states : Nat) : WindowState :=
  if states &&& WindowState.WindowFullScreen.toFlags ≠ 0 then
    WindowState.WindowFullScreen
  else if states &&& WindowState.WindowMaximized.toFlags ≠ 0 then
    WindowState.WindowMaximized
  else if states &&& WindowState.WindowMinimized.toFlags ≠ 0 then
    WindowState.WindowMinimized
  else
    WindowState.WindowNoState

/-! ## The frameless main window -/

/-- A call made on the underlying `QWidget`. -/
inductive WidgetCall where
  | setWindowState (state : WindowState)
  | showFullScreen
  | showNormal
  | showMaximized
  deriving DecidableEq, Repr

/-- The effect of the `QWidget` members the code calls on the widget's window-state flags:
each maps the current flags to the flags after the call (`setWindowState` also takes the
requested flags).  They belong to the toolkit and are parameters of the embedding. -/
structure QWidgetOps where
  setWindowState : Nat → Nat → Nat
  showFullScreen : Nat → Nat
  showNormal : Nat → Nat
  showMaximized : Nat → Nat

/-- What the code reads and writes of a `FramelessMainWindow`: the window-state flags of the
widget (`windowState()`), the member `savedWindowState` of its private object, and the calls
made on the underlying widget so far, most recent first. -/
structure FramelessMainWindow where
  windowState : Nat
  savedWindowState : WindowState
  calls : List WidgetCall
  deriving DecidableEq, Repr

/-- The toolkit member `QWidget::isMaximized()`: `windowState() & Qt::WindowMaximized`. -/
def FramelessMainWindow.isMaximized (w : FramelessMainWindow) : Bool :=
  w.windowState &&& WindowState.WindowMaximized.toFlags != 0

/-- The toolkit member `QWidget::isFullScreen()`: `windowState() & Qt::WindowFullScreen`. -/
def FramelessMainWindow.isFullScreen (w : FramelessMainWindow) : Bool :=
  w.windowState &&& WindowState.WindowFullScreen.toFlags != 0

/-- The member `FramelessMainWindow::isNormal`. -/
def FramelessMainWindow.isNormal (w : FramelessMainWindow) : Bool :=
  windowStatesToWindowState w.windowState == WindowState.WindowNoState

/-- The member `FramelessMainWindow::isZoomed`. -/
def FramelessMainWindow.isZoomed (w : FramelessMainWindow) : Bool :=
  w.isMaximized || w.isFullScreen

/-- The member `FramelessMainWindow::toggleMaximized`. -/
def FramelessMainWindow.toggleMaximized (q : QWidgetOps) (w : FramelessMainWindow) :
    FramelessMainWindow :=
  if w.isMaximized then
    { w with windowState := q.showNormal w.windowState,
             calls := WidgetCall.showNormal :: w.calls }
  else
    { w with windowState := q.showMaximized w.windowState,
             calls := WidgetCall.showMaximized :: w.calls }

/-- The member `FramelessMainWindow::toggleFullScreen`. -/
def FramelessMainWindow.toggleFullScreen (q : QWidgetOps) (w : FramelessMainWindow) :
    FramelessMainWindow :=
  if w.isFullScreen then
    { w with windowState := q.setWindowState w.savedWindowState.toFlags w.windowState,
             calls := WidgetCall.setWindowState w.savedWindowState :: w.calls }
  else
    let saved := windowStatesToWindowState w.windowState
    { windowState := q.showFullScreen w.windowState,
      savedWindowState := saved,
      calls := WidgetCall.showFullScreen :: w.calls }

/-- One event in the life of the window: a call of `toggleFullScreen`, or a change of the
window-state flags from outside (the user, the window manager, other code). -/
inductive Step where
  | toggle
  | external (states : Nat)
  deriving DecidableEq, Repr

/-- The window after one step. -/
def FramelessMainWindow.step (q : QWidgetOps) (w : FramelessMainWindow) :
    Step → FramelessMainWindow
  | Step.toggle => w.toggleFullScreen q
  | Step.external states => { w with windowState := states }

/-- The window after a sequence of steps. -/
def FramelessMainWindow.run (q : QWidgetOps) (w : FramelessMainWindow) (steps : List Step) :
    FramelessMainWindow :=
  steps.foldl (FramelessMainWindow.step q) w

/-- One step, keeping track of the window-state flags seen by the most recent call of
`toggleFullScreen` that entered full screen (`none` while there has been no such call). -/
def FramelessMainWindow.stepEntry (q : QWidgetOps) (p : FramelessMainWindow × Option Nat) :
    Step → FramelessMainWindow × Option Nat
  | Step.toggle =>
    (p.1.toggleFullScreen q, if p.1.isFullScreen then p.2 else some p.1.windowState)
  | Step.external states => ({ p.1 with windowState := states }, p.2)

/-- The window-state flags seen by the most recent call of `toggleFullScreen` that entered
full screen in a sequence of steps, if there was one. -/
def FramelessMainWindow.lastEntry (q : QWidgetOps) (w : FramelessMainWindow)
    (steps : List Step) : Option Nat :=
  (steps.foldl (FramelessMainWindow.stepEntry q) (w, none)).2

/-! ## The event filter of the widget helper -/

/-- What the code reads from a `QObject`: its identity and `isWidgetType()`. -/
structure QObject where
  id : Nat
  isWidgetType : Bool
  deriving DecidableEq, Repr

/-- The toolkit's base implementation `QObject::eventFilter`, which filters nothing. -/
def QObject.eventFilter (_watched : QObject) (_event : QEventType) : Bool := false

/-- What `eventFilter` does besides returning: the handler it runs or the repaint it
requests. -/
inductive HelperCall where
  | paintEventHandler
  | changeEventHandler
  | update
  deriving DecidableEq, Repr

/-- What `eventFilter` reads from a `WidgetsSharedHelper`: the guarded pointer
`m_targetWidget` (the identity of the widget, `none` when null) and `m_micaEnabled`. -/
structure WidgetsSharedHelper where
  m_targetWidget : Option Nat
  m_micaEnabled : Bool
  deriving DecidableEq, Repr

/-- The member `WidgetsSharedHelper::eventFilter`: the value returned, with the calls made
on the way.  An event is given by its type. -/
def WidgetsSharedHelper.eventFilter (b : Build) (self : WidgetsSharedHelper)
    (object : Option QObject) (event : Option QEventType) : Option (Bool × List HelperCall) :=
  (Q_ASSERT b object.isSome).bind fun _ =>
  (Q_ASSERT b event.isSome).bind fun _ =>
    match object, event with
    | some obj, some ev =>
      if self.m_targetWidget.isNone then
        some (QObject.eventFilter obj ev, [])
      else if !obj.isWidgetType then
        some (QObject.eventFilter obj ev, [])
      else
        let widget : Option Nat := some obj.id
        if widget ≠ self.m_targetWidget then
          some (QObject.eventFilter obj ev, [])
        else
          let calls : List HelperCall :=
            match ev with
            | QEventType.Paint => [HelperCall.paintEventHandler]
            | QEventType.WindowStateChange => [HelperCall.changeEventHandler]
            | QEventType.Move => if self.m_micaEnabled then [HelperCall.update] else []
            | QEventType.Resize => if self.m_micaEnabled then [HelperCall.update] else []
            | _ => []
          some (QObject.eventFilter obj ev, calls)
    | _, _ => some (false, [])

/-! ## The window registry of the native event filter -/

/-- Modelled from the spec: the state of `WinNativeEventFilter`, whose implementation file
is not among the sources at hand (only the header is).  The registry maps a native window
handle to its record, each handle at most once; `installed` tells whether the native event
filter has been installed. -/
structure FilterState where
  registry : List (Nat × WINDOW)
  installed : Bool
  deriving DecidableEq, Repr

/-- Modelled from the spec: `windowData(handle)` of `WinNativeEventFilter` (implementation
missing): the stored record, or null (`none`) if the handle is unregistered.  A null handle
is a violated precondition: asserted in a debug build, a null result in a release build. -/
def windowData (b : Build) (st : FilterState) (window : Option Nat) :
    Option (Option WINDOW) :=
  (Q_ASSERT b window.isSome).bind fun _ =>
    match window with
    | none => some none
    | some handle => some ((st.registry.find? fun e => e.1 == handle).map Prod.snd)

/-- Modelled from the spec: `addFramelessWindow(handle, config?, center?, x?, y?, width?,
height?)` of `WinNativeEventFilter` (implementation missing): registers `handle`; if it is
already registered its record is updated in place; a null `config` stands for the
default-constructed record; the native event filter is installed on the first call.  A null
handle is a violated precondition: asserted in a debug build, no effect in a release build.
The repositioning asked for by `center`, `x`, `y`, `width`, `height` acts on the native
window, which is not part of this state. -/
def addFramelessWindow (b : Build) (st : FilterState) (window : Option Nat)
    (data : Option WINDOW) (_center : Bool) (_x _y _width _height : Int) :
    Option FilterState :=
  (Q_ASSERT b window.isSome).bind fun _ =>
    match window with
    | none => some st
    | some handle =>
      let config := data.getD {}
      let registry :=
        if st.registry.any fun e => e.1 == handle then
          st.registry.map fun e => if e.1 == handle then (handle, config) else e
        else
          (handle, config) :: st.registry
      some { registry := registry, installed := true }

/-! ## Recording the positions a window is moved to -/

/-- The call `moveWindowToDesktopCenter` run on a state extended with the list of the points
`setWindowPosition` has been invoked with (most recent first); the three callbacks act on the
original state as before. -/
def moveWindowToDesktopCenterTraced {σ : Type} (b : Build) (kDefaultWindowSize : QSize)
    (primaryScreen : Option QScreen)
    (getWindowScreen : Option (σ → Option QScreen))
    (getWindowSize : Option (σ → QSize))
    (setWindowPosition : Option (QPoint → σ → σ))
    (considerTaskBar : Bool) (st : σ) : Option (σ × List QPoint) :=
  moveWindowToDesktopCenter b kDefaultWindowSize primaryScreen
    (getWindowScreen.map fun f (s : σ × List QPoint) => f s.1)
    (getWindowSize.map fun f (s : σ × List QPoint) => f s.1)
    (setWindowPosition.map fun f p (s : σ × List QPoint) => (f p s.1, p :: s.2))
    considerTaskBar (st, [])

/-- The condition under which `moveWindowToDesktopCenter` moves the window: the three
callbacks are non-null, the window size is non-empty and differs from `kDefaultWindowSize`,
and a screen is available, from `getWindowScreen` or else the primary screen. -/
def canCenter {σ : Type} (kDefaultWindowSize : QSize) (primaryScreen : Option QScreen)
    (getWindowScreen : Option (σ → Option QScreen)) (getWindowSize : Option (σ → QSize))
    (setWindowPosition : Option (QPoint → σ → σ)) (st : σ) : Prop :=
  ∃ getScreen getSize setPosition scr,
    getWindowScreen = some getScreen ∧ getWindowSize = some getSize
      ∧ setWindowPosition = some setPosition
      ∧ (getSize st).isEmpty = false ∧ getSize st ≠ kDefaultWindowSize
      ∧ (getScreen st = some scr ∨ (getScreen st = none ∧ primaryScreen = some scr))

/-! ## Agreement of a cursor shape with an edge set -/

/-- A cursor shape and an edge set name the same resize zone: the arrow goes with the empty
set, a diagonal cursor with a set holding a horizontal and a vertical edge, the horizontal
(vertical) cursor with a non-empty set of horizontal (vertical) edges only. -/
def cursorAgreesWithEdges (c : CursorShape) (e : Nat) : Prop :=
  (c = CursorShape.ArrowCursor ↔ e = 0)
    ∧ ((c = CursorShape.SizeFDiagCursor ∨ c = CursorShape.SizeBDiagCursor) ↔
        ((testFlag e LeftEdge = true ∨ testFlag e RightEdge = true)
          ∧ (testFlag e TopEdge = true ∨ testFlag e BottomEdge = true)))
    ∧ (c = CursorShape.SizeHorCursor ↔
        (e ≠ 0 ∧ testFlag e TopEdge = false ∧ testFlag e BottomEdge = false))
    ∧ (c = CursorShape.SizeVerCursor ↔
        (e ≠ 0 ∧ testFlag e LeftEdge = false ∧ testFlag e RightEdge = false))

instance (c : CursorShape) (e : Nat) : Decidable (cursorAgreesWithEdges c e) := by
  unfold cursorAgreesWithEdges; infer_instance

/-! ## Sample inputs -/

/-- A desktop (Windows) release build without private toolkit headers. -/
def winRelease : Build :=
  { Q_OS_MACOS := false, Q_OS_WINDOWS := true, QT_NO_DEBUG := true,
    FRAMELESSHELPER_CORE_NO_PRIVATE := true, FRAMELESSHELPER_CORE_NO_BUNDLE_RESOURCE := false,
    QT_VERSION := QT_VERSION_CHECK 6 2 0 }

/-- The same configuration built for macOS. -/
def macRelease : Build :=
  { winRelease with Q_OS_MACOS := true, Q_OS_WINDOWS := false }

/-- A Linux debug build (assertions enabled). -/
def linuxDebug : Build :=
  { winRelease with Q_OS_WINDOWS := false, QT_NO_DEBUG := false }

/-- An 800x600 window shown normally, at the given device pixel ratio. -/
def window800x600 (dpr : ℚ) : QWindow :=
  { visibility := Visibility.Windowed, width := 800, height := 600,
    devicePixelRatio := dpr, handle := true, winId := 1 }

/-- A 10x600 window shown normally: narrower than two border bands of 8 pixels. -/
def window10x600 : QWindow :=
  { visibility := Visibility.Windowed, width := 10, height := 600,
    devicePixelRatio := 1, handle := true, winId := 2 }

/-- A screen of 1920x1080 whose usable area is 1920x1040 starting at `(0, 40)`. -/
def sampleScreen : QScreen :=
  { virtualSize := { width := 1920, height := 1080 },
    availableVirtualSize := { width := 1920, height := 1040 },
    availableVirtualGeometry := { x1 := 0, y1 := 40, x2 := 1919, y2 := 1079 } }

/-- A stand-in for the private high-DPI interface that converts nothing. -/
def identityHighDpi : QHighDpi :=
  { toNativePixelsInt := fun v _ => v, toNativePixelsPoint := fun p _ => p,
    toNativePixelsSize := fun z _ => z, toNativePixelsRect := fun r _ => r,
    fromNativePixelsInt := fun v _ => v, fromNativePixelsPoint := fun p _ => p,
    fromNativePixelsSize := fun z _ => z, fromNativePixelsRect := fun r _ => r,
    roundScaleFactor := fun f => f }

/-- The enumerator values `Unknown = -1`, `WindowIcon = 0`, ..., `Close = 5`. -/
def sampleButtons : SystemButtonType :=
  { Unknown := -1, WindowIcon := 0, Help := 1, Minimize := 2, Maximize := 3, Restore := 4,
    Close := 5 }

/-- The effect of the `QWidget` members as the toolkit implements them: `setWindowState`
installs the requested flags; `showFullScreen`, `showNormal` and `showMaximized` clear the
flags they replace and set their own. -/
def qtWidgetOps : QWidgetOps :=
  { setWindowState := fun requested _ => requested,
    showFullScreen := fun states => (states ^^^ (states &&& 3)) ||| 4,
    showNormal := fun states => states ^^^ (states &&& 7),
    showMaximized := fun states => (states ^^^ (states &&& 5)) ||| 2 }

/-- A main window that is full screen while its saved window state is `WindowActive`. -/
def fullScreenSavedActive : FramelessMainWindow :=
  { windowState := 4, savedWindowState := WindowState.WindowActive, calls := [] }

/-- A maximized, active main window as it is after construction (`savedWindowState` is
`WindowNoState`). -/
def maximizedWindow : FramelessMainWindow :=
  { windowState := 10, savedWindowState := WindowState.WindowNoState, calls := [] }

/-- The double nearest to 1.7, `7656119366529843 * 2 ^ (-52)`; it lies slightly below 1.7. -/
def double17 : ℚ := 7656119366529843 / 4503599627370496

/-- The double `1 + 2 ^ (-31)`. -/
def doubleAboveOne : ℚ := 2147483649 / 2147483648

/-! ## Theorems: hit testing -/

/-- On a build other than macOS, the cursor shape of a normally shown window is decided by
the four threshold tests exactly as the source orders them. -/
theorem calculateCursorShape_windowed (b : Build) (k : Int) (win : QWindow) (pos : QPoint)
    (hmac : b.Q_OS_MACOS = false) (hvis : win.visibility = Visibility.Windowed) :
    calculateCursorShape b k (some win) pos =
      some (if (pos.x < k ∧ pos.y < k) ∨ (pos.x ≥ win.width - k ∧ pos.y ≥ win.height - k) then
          CursorShape.SizeFDiagCursor
        else if (pos.x ≥ win.width - k ∧ pos.y < k) ∨ (pos.x < k ∧ pos.y ≥ win.height - k) then
          CursorShape.SizeBDiagCursor
        else if pos.x < k ∨ pos.x ≥ win.width - k then CursorShape.SizeHorCursor
        else if pos.y < k ∨ pos.y ≥ win.height - k then CursorShape.SizeVerCursor
        else CursorShape.ArrowCursor) := by
  simp only [calculateCursorShape, Q_ASSERT, hmac, hvis]
  simp only [Option.isSome_some, Bool.or_true, if_true, Option.bind_some, ne_eq,
    not_true_eq_false, if_false, Bool.false_eq_true]
  split_ifs <;> rfl

/-- On a build other than macOS, the edge set of a normally shown window is the union of
the flags of the threshold tests that hold. -/
theorem calculateWindowEdges_windowed (b : Build) (k : Int) (win : QWindow) (pos : QPoint)
    (hmac : b.Q_OS_MACOS = false) (hvis : win.visibility = Visibility.Windowed) :
    calculateWindowEdges b k (some win) pos =
      some ((((if pos.x < k then 0 ||| LeftEdge else 0)
        ||| (if pos.x ≥ win.width - k then RightEdge else 0))
        ||| (if pos.y < k then TopEdge else 0))
        ||| (if pos.y ≥ win.height - k then BottomEdge else 0)) := by
  simp only [calculateWindowEdges, Q_ASSERT, hmac, hvis]
  simp only [Option.isSome_some, Bool.or_true, if_true, Option.bind_some, ne_eq,
    not_true_eq_false, if_false, Bool.false_eq_true]
  split_ifs <;> rfl

/-- On macOS both classification functions report no resize zone, whatever the window and
the point. -/
theorem calculate_macos (b : Build) (k : Int) (window : Option QWindow) (pos : QPoint)
    (hmac : b.Q_OS_MACOS = true) :
    calculateCursorShape b k window pos = some CursorShape.ArrowCursor
      ∧ calculateWindowEdges b k window pos = some 0 := by
  simp [calculateCursorShape, calculateWindowEdges, hmac]

/-- C1, as stated, fails on a macOS build: the point (4,4) of a normally shown 800x600
window lies within 8 pixels of the left and of the top edge, yet
`calculateCursorShape` returns `ArrowCursor`, not `SizeFDiagCursor`. -/
theorem calculateCursorShape_corner_macos :
    (window800x600 1).visibility = Visibility.Windowed
      ∧ ((4 : Int) < 8 ∧ (4 : Int) < 8)
      ∧ calculateCursorShape macRelease 8 (some (window800x600 1)) { x := 4, y := 4 }
          = some CursorShape.ArrowCursor
      ∧ calculateCursorShape macRelease 8 (some (window800x600 1)) { x := 4, y := 4 }
          ≠ some CursorShape.SizeFDiagCursor := by
  decide

/-- C1 (amended): on every build other than macOS, for a normally shown (`Windowed`) window
of width `w` and height `h` and a point `(x, y)`: if `(x < k and y < k)` or
`(x >= w-k and y >= h-k)` the cursor is `SizeFDiagCursor`; otherwise, if
`(x >= w-k and y < k)` or `(x < k and y >= h-k)` it is `SizeBDiagCursor`; hence whenever a
horizontal and a vertical threshold both match the cursor is diagonal, never `SizeHorCursor`
or `SizeVerCursor`. -/
theorem calculateCursorShape_corner (b : Build) (k : Int) (win : QWindow) (pos : QPoint)
    (hmac : b.Q_OS_MACOS = false) (hvis : win.visibility = Visibility.Windowed) :
    (((pos.x < k ∧ pos.y < k) ∨ (pos.x ≥ win.width - k ∧ pos.y ≥ win.height - k)) →
        calculateCursorShape b k (some win) pos = some CursorShape.SizeFDiagCursor)
      ∧ (¬ ((pos.x < k ∧ pos.y < k) ∨ (pos.x ≥ win.width - k ∧ pos.y ≥ win.height - k)) →
          ((pos.x ≥ win.width - k ∧ pos.y < k) ∨ (pos.x < k ∧ pos.y ≥ win.height - k)) →
          calculateCursorShape b k (some win) pos = some CursorShape.SizeBDiagCursor)
      ∧ (((pos.x < k ∨ pos.x ≥ win.width - k) ∧ (pos.y < k ∨ pos.y ≥ win.height - k)) →
          (calculateCursorShape b k (some win) pos = some CursorShape.SizeFDiagCursor
            ∨ calculateCursorShape b k (some win) pos = some CursorShape.SizeBDiagCursor)
          ∧ calculateCursorShape b k (some win) pos ≠ some CursorShape.SizeHorCursor
          ∧ calculateCursorShape b k (some win) pos ≠ some CursorShape.SizeVerCursor) := by
  rw [calculateCursorShape_windowed b k win pos hmac hvis]
  refine ⟨fun h => by rw [if_pos h], fun h1 h2 => by rw [if_neg h1, if_pos h2], ?_⟩
  rintro ⟨hx, hy⟩
  by_cases h1 : (pos.x < k ∧ pos.y < k) ∨ (pos.x ≥ win.width - k ∧ pos.y ≥ win.height - k)
  · rw [if_pos h1]; simp
  · have h2 : (pos.x ≥ win.width - k ∧ pos.y < k) ∨ (pos.x < k ∧ pos.y ≥ win.height - k) := by
      rcases hx with hx | hx <;> rcases hy with hy | hy
      · exact absurd (Or.inl ⟨hx, hy⟩) h1
      · exact Or.inr ⟨hx, hy⟩
      · exact Or.inl ⟨hx, hy⟩
      · exact absurd (Or.inr ⟨hx, hy⟩) h1
    rw [if_neg h1, if_pos h2]; simp

/-- The amended C1 at the four corners of an 800x600 window with 8-pixel bands, on a Windows
build. -/
theorem calculateCursorShape_corner_witness :
    calculateCursorShape winRelease 8 (some (window800x600 1)) { x := 4, y := 4 }
        = some CursorShape.SizeFDiagCursor
      ∧ calculateCursorShape winRelease 8 (some (window800x600 1)) { x := 796, y := 596 }
        = some CursorShape.SizeFDiagCursor
      ∧ calculateCursorShape winRelease 8 (some (window800x600 1)) { x := 796, y := 4 }
        = some CursorShape.SizeBDiagCursor
      ∧ calculateCursorShape winRelease 8 (some (window800x600 1)) { x := 4, y := 596 }
        = some CursorShape.SizeBDiagCursor :=
  ⟨(calculateCursorShape_corner winRelease 8 (window800x600 1) { x := 4, y := 4 } rfl rfl).1
      (by decide),
    (calculateCursorShape_corner winRelease 8 (window800x600 1) { x := 796, y := 596 }
      rfl rfl).1 (by decide),
    (calculateCursorShape_corner winRelease 8 (window800x600 1) { x := 796, y := 4 }
      rfl rfl).2.1 (by decide) (by decide),
    (calculateCursorShape_corner winRelease 8 (window800x600 1) { x := 4, y := 596 }
      rfl rfl).2.1 (by decide) (by decide)⟩

/-- C2: for every build, every window of width `w` and height `h` (whatever its visibility)
and every point with `k <= x < w-k` and `k <= y < h-k`, `calculateCursorShape` returns
`ArrowCursor` and `calculateWindowEdges` the empty edge set. -/
theorem calculate_interior (b : Build) (k : Int) (win : QWindow) (pos : QPoint)
    (hx1 : k ≤ pos.x) (hx2 : pos.x < win.width - k)
    (hy1 : k ≤ pos.y) (hy2 : pos.y < win.height - k) :
    calculateCursorShape b k (some win) pos = some CursorShape.ArrowCursor
      ∧ calculateWindowEdges b k (some win) pos = some 0 := by
  cases hmac : b.Q_OS_MACOS
  · by_cases hvis : win.visibility = Visibility.Windowed
    · rw [calculateCursorShape_windowed b k win pos hmac hvis,
        calculateWindowEdges_windowed b k win pos hmac hvis]
      have a1 : ¬ pos.x < k := by omega
      have a2 : ¬ pos.x ≥ win.width - k := by omega
      have a3 : ¬ pos.y < k := by omega
      have a4 : ¬ pos.y ≥ win.height - k := by omega
      simp [a1, a2, a3, a4]
    · simp [calculateCursorShape, calculateWindowEdges, Q_ASSERT, hmac, hvis]
  · exact calculate_macos b k (some win) pos hmac

/-- C2 at the centre of an 800x600 window with 8-pixel bands. -/
theorem calculate_interior_witness :
    calculateCursorShape winRelease 8 (some (window800x600 1)) { x := 400, y := 300 }
        = some CursorShape.ArrowCursor
      ∧ calculateWindowEdges winRelease 8 (some (window800x600 1)) { x := 400, y := 300 }
        = some 0 :=
  calculate_interior winRelease 8 (window800x600 1) { x := 400, y := 300 }
    (by decide) (by decide) (by decide) (by decide)

/-- C3, as stated, fails on a macOS build: the point (400,4) of a normally shown 800x600
window lies in the top band (`8 <= 400 < 792`, `4 < 8`), yet `calculateCursorShape` returns
`ArrowCursor`, not `SizeVerCursor`, and `calculateWindowEdges` returns no edge, not `Top`. -/
theorem calculate_edge_band_macos :
    (window800x600 1).visibility = Visibility.Windowed
      ∧ ((8 : Int) ≤ 400 ∧ (400 : Int) < 800 - 8 ∧ (4 : Int) < 8)
      ∧ calculateCursorShape macRelease 8 (some (window800x600 1)) { x := 400, y := 4 }
          = some CursorShape.ArrowCursor
      ∧ calculateCursorShape macRelease 8 (some (window800x600 1)) { x := 400, y := 4 }
          ≠ some CursorShape.SizeVerCursor
      ∧ calculateWindowEdges macRelease 8 (some (window800x600 1)) { x := 400, y := 4 }
          ≠ some TopEdge := by
  decide

/-- C3 (amended): on every build other than macOS, for a normally shown window of width `w`
and height `h`: a point with `k <= x < w-k` and (`y < k` or `y >= h-k`) yields
`SizeVerCursor` and an edge set without `Left` and `Right`; a point with (`x < k` or
`x >= w-k`) and `k <= y < h-k` yields `SizeHorCursor` and an edge set without `Top` and
`Bottom`.  For an 800x600 window with `k = 8`: (4,4) gives `SizeFDiagCursor` and
`{Left, Top}`, (400,4) gives `SizeVerCursor` and `{Top}`, (400,300) gives `ArrowCursor` and
no edge. -/
theorem calculate_edge_band (b : Build) (k : Int) (win : QWindow) (pos : QPoint)
    (hmac : b.Q_OS_MACOS = false) (hvis : win.visibility = Visibility.Windowed) :
    ((k ≤ pos.x ∧ pos.x < win.width - k) → (pos.y < k ∨ pos.y ≥ win.height - k) →
        calculateCursorShape b k (some win) pos = some CursorShape.SizeVerCursor
          ∧ ∃ e, calculateWindowEdges b k (some win) pos = some e
              ∧ testFlag e LeftEdge = false ∧ testFlag e RightEdge = false)
      ∧ ((pos.x < k ∨ pos.x ≥ win.width - k) → (k ≤ pos.y ∧ pos.y < win.height - k) →
        calculateCursorShape b k (some win) pos = some CursorShape.SizeHorCursor
          ∧ ∃ e, calculateWindowEdges b k (some win) pos = some e
              ∧ testFlag e TopEdge = false ∧ testFlag e BottomEdge = false)
      ∧ (calculateCursorShape b 8 (some (window800x600 1)) { x := 4, y := 4 }
            = some CursorShape.SizeFDiagCursor
          ∧ calculateWindowEdges b 8 (some (window800x600 1)) { x := 4, y := 4 }
            = some (LeftEdge ||| TopEdge))
      ∧ (calculateCursorShape b 8 (some (window800x600 1)) { x := 400, y := 4 }
            = some CursorShape.SizeVerCursor
          ∧ calculateWindowEdges b 8 (some (window800x600 1)) { x := 400, y := 4 }
            = some TopEdge)
      ∧ (calculateCursorShape b 8 (some (window800x600 1)) { x := 400, y := 300 }
            = some CursorShape.ArrowCursor
          ∧ calculateWindowEdges b 8 (some (window800x600 1)) { x := 400, y := 300 }
            = some 0) := by
  refine ⟨?_, ?_, ?_, ?_, ?_⟩
  · rintro ⟨hx1, hx2⟩ hy
    rw [calculateCursorShape_windowed b k win pos hmac hvis,
      calculateWindowEdges_windowed b k win pos hmac hvis]
    have a1 : ¬ pos.x < k := by omega
    have a2 : ¬ pos.x ≥ win.width - k := by omega
    refine ⟨?_, _, rfl, ?_⟩
    · simp only [a1, a2, false_and, and_false, or_self, if_false, if_pos hy]
    simp only [a1, a2, if_false]
    split_ifs <;> decide
  · rintro hx ⟨hy1, hy2⟩
    rw [calculateCursorShape_windowed b k win pos hmac hvis,
      calculateWindowEdges_windowed b k win pos hmac hvis]
    have a3 : ¬ pos.y < k := by omega
    have a4 : ¬ pos.y ≥ win.height - k := by omega
    refine ⟨?_, _, rfl, ?_⟩
    · simp only [a3, a4, false_and, and_false, or_self, if_false, if_pos hx]
    simp only [a3, a4, if_false]
    split_ifs <;> decide
  · rw [calculateCursorShape_windowed b 8 _ _ hmac rfl,
      calculateWindowEdges_windowed b 8 _ _ hmac rfl]
    decide
  · rw [calculateCursorShape_windowed b 8 _ _ hmac rfl,
      calculateWindowEdges_windowed b 8 _ _ hmac rfl]
    decide
  · rw [calculateCursorShape_windowed b 8 _ _ hmac rfl,
      calculateWindowEdges_windowed b 8 _ _ hmac rfl]
    decide

/-- The amended C3 on a Linux debug build: the top band and the left band of an 800x600
window, and the three sample points. -/
theorem calculate_edge_band_witness :
    (calculateCursorShape linuxDebug 8 (some (window800x600 1)) { x := 400, y := 4 }
        = some CursorShape.SizeVerCursor
      ∧ ∃ e, calculateWindowEdges linuxDebug 8 (some (window800x600 1)) { x := 400, y := 4 }
          = some e ∧ testFlag e LeftEdge = false ∧ testFlag e RightEdge = false)
      ∧ (calculateCursorShape linuxDebug 8 (some (window800x600 1)) { x := 4, y := 300 }
        = some CursorShape.SizeHorCursor
      ∧ ∃ e, calculateWindowEdges linuxDebug 8 (some (window800x600 1)) { x := 4, y := 300 }
          = some e ∧ testFlag e TopEdge = false ∧ testFlag e BottomEdge = false) :=
  ⟨(calculate_edge_band linuxDebug 8 (window800x600 1) { x := 400, y := 4 } rfl rfl).1
      (by decide) (by decide),
    (calculate_edge_band linuxDebug 8 (window800x600 1) { x := 4, y := 300 } rfl rfl).2.1
      (by decide) (by decide)⟩

/-- C4, as stated, fails for a window narrower than two border bands: at the point (5,300)
of a normally shown 10x600 window with `k = 8` both `x < k` and `x >= w - k` hold, and the
edge set returned is `{Left, Right}`. -/
theorem calculateWindowEdges_left_and_right :
    calculateWindowEdges winRelease 8 (some window10x600) { x := 5, y := 300 }
        = some (LeftEdge ||| RightEdge)
      ∧ testFlag (LeftEdge ||| RightEdge) LeftEdge = true
      ∧ testFlag (LeftEdge ||| RightEdge) RightEdge = true := by
  decide

/-- C4 (amended): for every window whose width and height are both at least `2 * k` and every
point, the edge set returned by `calculateWindowEdges` is empty, a single edge, or one
horizontal edge combined with one vertical edge; it contains neither both `Left` and `Right`
nor both `Top` and `Bottom`. -/
theorem calculateWindowEdges_zone (b : Build) (k : Int) (win : QWindow) (pos : QPoint)
    (hw : 2 * k ≤ win.width) (hh : 2 * k ≤ win.height) :
    ∃ e, calculateWindowEdges b k (some win) pos = some e
      ∧ e ∈ [0, LeftEdge, RightEdge, TopEdge, BottomEdge,
          LeftEdge ||| TopEdge, LeftEdge ||| BottomEdge,
          RightEdge ||| TopEdge, RightEdge ||| BottomEdge]
      ∧ ¬ (testFlag e LeftEdge = true ∧ testFlag e RightEdge = true)
      ∧ ¬ (testFlag e TopEdge = true ∧ testFlag e BottomEdge = true) := by
  cases hmac : b.Q_OS_MACOS
  · by_cases hvis : win.visibility = Visibility.Windowed
    · rw [calculateWindowEdges_windowed b k win pos hmac hvis]
      refine ⟨_, rfl, ?_⟩
      by_cases a1 : pos.x < k <;> by_cases a2 : pos.x ≥ win.width - k
        <;> by_cases a3 : pos.y < k <;> by_cases a4 : pos.y ≥ win.height - k
        <;> first
          | (exfalso; omega)
          | (simp only [a1, a2, a3, a4, if_true, if_false]; decide)
    · refine ⟨0, ?_, by decide⟩
      simp [calculateWindowEdges, Q_ASSERT, hmac, hvis]
  · exact ⟨0, (calculate_macos b k (some win) pos hmac).2, by decide⟩

/-- The amended C4 at the top-right corner of an 800x600 window with 8-pixel bands. -/
theorem calculateWindowEdges_zone_witness :
    ∃ e, calculateWindowEdges winRelease 8 (some (window800x600 1)) { x := 796, y := 4 }
        = some e
      ∧ e ∈ [0, LeftEdge, RightEdge, TopEdge, BottomEdge,
          LeftEdge ||| TopEdge, LeftEdge ||| BottomEdge,
          RightEdge ||| TopEdge, RightEdge ||| BottomEdge]
      ∧ ¬ (testFlag e LeftEdge = true ∧ testFlag e RightEdge = true)
      ∧ ¬ (testFlag e TopEdge = true ∧ testFlag e BottomEdge = true) :=
  calculateWindowEdges_zone winRelease 8 (window800x600 1) { x := 796, y := 4 }
    (by decide) (by decide)

/-! ## Theorems: rounding -/

/-- Truncation of a non-negative value is its floor. -/
theorem qrealToInt_of_nonneg {d : ℚ} (h : 0 ≤ d) : qrealToInt d = ⌊d⌋ := by
  simp [qrealToInt, h]

/-- Truncation of a negative value is its ceiling. -/
theorem qrealToInt_of_neg {d : ℚ} (h : d < 0) : qrealToInt d = ⌈d⌉ := by
  simp [qrealToInt, not_le.mpr h]

/-- The value of `qRound` in terms of floor and ceiling: half-integers are rounded away from
zero by Qt 6 and upwards by Qt 5. -/
theorem qRound_eq (b : Build) (d : ℚ) :
    qRound b d =
      if b.QT_VERSION ≥ QT_VERSION_CHECK 6 0 0 ∧ d < 0 then ⌈d - 1 / 2⌉ else ⌊d + 1 / 2⌋ := by
  unfold qRound
  by_cases hd : d ≥ 0
  · have hn : ¬ (b.QT_VERSION ≥ QT_VERSION_CHECK 6 0 0 ∧ d < 0) :=
      fun h => absurd h.2 (not_lt.mpr hd)
    simp only [if_pos hd, if_neg hn, ite_self]
    exact qrealToInt_of_nonneg (by linarith)
  · have hd0 : d < 0 := not_le.mp hd
    by_cases hv : b.QT_VERSION ≥ QT_VERSION_CHECK 6 0 0
    · simp only [if_pos hv, if_neg hd, if_pos (And.intro hv hd0)]
      exact qrealToInt_of_neg (by linarith)
    · have hn : ¬ (b.QT_VERSION ≥ QT_VERSION_CHECK 6 0 0 ∧ d < 0) := fun h => hv h.1
      simp only [if_neg hv, if_neg hd, if_neg hn]
      rw [qrealToInt_of_neg (show d - 1 < 0 by linarith)]
      have h1 : (⌈d - 1⌉ : ℚ) < d - 1 + 1 := Int.ceil_lt_add_one _
      rw [qrealToInt_of_nonneg (by linarith)]
      have h2 : d - (⌈d - 1⌉ : ℚ) + 1 / 2 = (d + 1 / 2) - (⌈d - 1⌉ : ℚ) := by ring
      rw [h2, Int.floor_sub_int]
      ring

/-- The result of `qRound` is an integer at distance at most one half from its argument. -/
theorem qRound_nearest (b : Build) (d : ℚ) : |((qRound b d : Int) : ℚ) - d| ≤ 1 / 2 := by
  rw [qRound_eq, abs_le]
  split_ifs with h
  · have h1 := Int.le_ceil (d - 1 / 2)
    have h2 := Int.ceil_lt_add_one (d - 1 / 2)
    constructor <;> linarith
  · have h1 := Int.floor_le (d + 1 / 2)
    have h2 := Int.lt_floor_add_one (d + 1 / 2)
    constructor <;> linarith

/-- On an integral value `qRound` is the identity. -/
theorem qRound_intCast (b : Build) (n : Int) : qRound b (n : ℚ) = n := by
  have h := qRound_nearest b (n : ℚ)
  rw [abs_le] at h
  have h1 : ((qRound b (n : ℚ) - n : Int) : ℚ) < 1 := by push_cast; linarith
  have h2 : (-1 : ℚ) < ((qRound b (n : ℚ) - n : Int) : ℚ) := by push_cast; linarith
  have h3 : qRound b (n : ℚ) - n < 1 := by exact_mod_cast h1
  have h4 : -1 < qRound b (n : ℚ) - n := by exact_mod_cast h2
  omega

/-- Rounding half of an integer `n`: twice the result differs from `n` by at most one. -/
theorem qRound_half (b : Build) (n : Int) :
    |2 * qRound b ((n : ℚ) / 2) - n| ≤ 1 := by
  have h := qRound_nearest b ((n : ℚ) / 2)
  rw [abs_le] at h
  rw [abs_le]
  have h1 : ((2 * qRound b ((n : ℚ) / 2) - n : Int) : ℚ) ≤ 1 := by push_cast; linarith
  have h2 : (-1 : ℚ) ≤ ((2 * qRound b ((n : ℚ) / 2) - n : Int) : ℚ) := by push_cast; linarith
  exact ⟨by exact_mod_cast h2, by exact_mod_cast h1⟩

/-! ## Theorems: centering a window -/

/-- C6: for every non-empty window size `(ww, wh)` different from `kDefaultWindowSize` and
every screen with size `(sw, sh)` and offset `(ox, oy)` (the available virtual size and the
top-left of the available virtual geometry when `considerTaskBar` is true; the virtual size
and `(0, 0)` when it is false), `moveWindowToDesktopCenter` invokes `setWindowPosition`
exactly once, with the point `(ox + rx, oy + ry)` where `|2*rx - (sw - ww)| <= 1` and
`|2*ry - (sh - wh)| <= 1`; no sign condition on `sw - ww` or `sh - wh` is needed.  The screen
is the one `getWindowScreen` returns or, failing that, the primary screen. -/
theorem moveWindowToDesktopCenter_centers {σ : Type} (b : Build) (kDefaultWindowSize : QSize)
    (primaryScreen : Option QScreen) (getScreen : σ → Option QScreen) (getSize : σ → QSize)
    (setPosition : QPoint → σ → σ) (considerTaskBar : Bool) (st : σ) (scr : QScreen)
    (hne : (getSize st).isEmpty = false) (hdef : getSize st ≠ kDefaultWindowSize)
    (hscr : getScreen st = some scr ∨ (getScreen st = none ∧ primaryScreen = some scr)) :
    ∃ rx ry : Int,
      moveWindowToDesktopCenter b kDefaultWindowSize primaryScreen (some getScreen)
          (some getSize) (some setPosition) considerTaskBar st
        = some (setPosition
            { x := (if considerTaskBar then scr.availableVirtualGeometry.x1 else 0) + rx,
              y := (if considerTaskBar then scr.availableVirtualGeometry.y1 else 0) + ry } st)
      ∧ |2 * rx - ((if considerTaskBar then scr.availableVirtualSize.width
            else scr.virtualSize.width) - (getSize st).width)| ≤ 1
      ∧ |2 * ry - ((if considerTaskBar then scr.availableVirtualSize.height
            else scr.virtualSize.height) - (getSize st).height)| ≤ 1 := by
  have hs : (match getScreen st with
      | some s => some s
      | none => primaryScreen) = some scr := by
    rcases hscr with h | ⟨h1, h2⟩
    · rw [h]
    · rw [h1]; exact h2
  have hdef2 : (getSize st == kDefaultWindowSize) = false := by
    simpa using hdef
  cases considerTaskBar
  · refine ⟨qRound b (((scr.virtualSize.width - (getSize st).width : Int) : ℚ) / 2),
      qRound b (((scr.virtualSize.height - (getSize st).height : Int) : ℚ) / 2), ?_, ?_, ?_⟩
    · simp only [moveWindowToDesktopCenter, Q_ASSERT, Option.isSome_some, Bool.or_true,
        if_true, Option.bind_some, hne, hdef2, Bool.or_false, Bool.false_eq_true, if_false, hs]
      simp only [Option.some_bind, add_zero, zero_add]
    · simp only [Bool.false_eq_true, if_false]
      exact qRound_half b _
    · simp only [Bool.false_eq_true, if_false]
      exact qRound_half b _
  · refine ⟨qRound b (((scr.availableVirtualSize.width - (getSize st).width : Int) : ℚ) / 2),
      qRound b (((scr.availableVirtualSize.height - (getSize st).height : Int) : ℚ) / 2),
      ?_, ?_, ?_⟩
    · simp only [moveWindowToDesktopCenter, Q_ASSERT, Option.isSome_some, Bool.or_true,
        if_true, Option.bind_some, hne, hdef2, Bool.or_false, Bool.false_eq_true, if_false, hs,
        QRect.topLeft]
      simp only [Option.some_bind]
      rw [add_comm _ scr.availableVirtualGeometry.x1, add_comm _ scr.availableVirtualGeometry.y1]
    · simp only [if_true]
      exact qRound_half b _
    · simp only [if_true]
      exact qRound_half b _

/-- C6 on a trace of the positions set: an 801x600 window on `sampleScreen`, task bar taken
into account; exactly one position is recorded. -/
theorem moveWindowToDesktopCenter_centers_witness :
    ∃ rx ry : Int,
      moveWindowToDesktopCenter winRelease { width := 160, height := 160 } none
          (some fun (_ : List QPoint) => some sampleScreen)
          (some fun (_ : List QPoint) => ({ width := 801, height := 600 } : QSize))
          (some fun (p : QPoint) (trace : List QPoint) => p :: trace) true []
        = some [{ x := 0 + rx, y := 40 + ry }]
      ∧ |2 * rx - (1920 - 801)| ≤ 1 ∧ |2 * ry - (1040 - 600)| ≤ 1 :=
  moveWindowToDesktopCenter_centers winRelease { width := 160, height := 160 } none
    (fun (_ : List QPoint) => some sampleScreen)
    (fun (_ : List QPoint) => ({ width := 801, height := 600 } : QSize))
    (fun (p : QPoint) (trace : List QPoint) => p :: trace) true [] sampleScreen
    (by decide) (by decide) (Or.inl rfl)

/-! ## Theorems: violated preconditions -/

/-- C8: in a release build (assertions disabled) a violated precondition yields the neutral
default: for a null window `calculateCursorShape` returns `ArrowCursor`,
`calculateWindowEdges` the empty edge set, the `int` overloads of `toNativePixels` and
`fromNativePixels` return 0 and the `QPoint`/`QSize`/`QRect` overloads a default-constructed
value; `findWindow(0)` returns null; `isThemeChangeEvent(null)` returns false; and
`roundScaleFactor(f)` returns 1 for every `f <= 0`. -/
theorem release_defaults (b : Build) (hd : QHighDpi) (policy : HighDpiScaleFactorRoundingPolicy)
    (k value : Int) (pos point : QPoint) (size : QSize) (rect : QRect)
    (topLevelWindows : List (Option QWindow)) (f : ℚ)
    (hrel : b.QT_NO_DEBUG = true) :
    calculateCursorShape b k none pos = some CursorShape.ArrowCursor
      ∧ calculateWindowEdges b k none pos = some 0
      ∧ toNativePixels b hd none value = some 0
      ∧ fromNativePixels b hd none value = some 0
      ∧ toNativePixelsPoint b hd none point = some ({} : QPoint)
      ∧ toNativePixelsSize b hd none size = some ({} : QSize)
      ∧ toNativePixelsRect b hd none rect = some ({} : QRect)
      ∧ fromNativePixelsPoint b hd none point = some ({} : QPoint)
      ∧ fromNativePixelsSize b hd none size = some ({} : QSize)
      ∧ fromNativePixelsRect b hd none rect = some ({} : QRect)
      ∧ findWindow b topLevelWindows 0 = some none
      ∧ isThemeChangeEvent b none = some false
      ∧ (f ≤ 0 → roundScaleFactor b hd policy f = some 1) := by
  refine ⟨?_, ?_, ?_, ?_, ?_, ?_, ?_, ?_, ?_, ?_, ?_, ?_, ?_⟩
  · cases hmac : b.Q_OS_MACOS <;> simp [calculateCursorShape, Q_ASSERT, hrel, hmac]
  · cases hmac : b.Q_OS_MACOS <;> simp [calculateWindowEdges, Q_ASSERT, hrel, hmac]
  · simp [toNativePixels, Q_ASSERT, hrel]
  · simp [fromNativePixels, Q_ASSERT, hrel]
  · simp [toNativePixelsPoint, Q_ASSERT, hrel]
  · simp [toNativePixelsSize, Q_ASSERT, hrel]
  · simp [toNativePixelsRect, Q_ASSERT, hrel]
  · simp [fromNativePixelsPoint, Q_ASSERT, hrel]
  · simp [fromNativePixelsSize, Q_ASSERT, hrel]
  · simp [fromNativePixelsRect, Q_ASSERT, hrel]
  · simp [findWindow, Q_ASSERT, hrel]
  · simp [isThemeChangeEvent, Q_ASSERT, hrel]
  · intro hf
    simp [roundScaleFactor, Q_ASSERT, hrel, hf]

/-- C8 on a Windows release build, with the scale factor `-3/2`. -/
theorem release_defaults_witness :
    calculateCursorShape winRelease 8 none { x := 4, y := 4 } = some CursorShape.ArrowCursor
      ∧ calculateWindowEdges winRelease 8 none { x := 4, y := 4 } = some 0
      ∧ toNativePixels winRelease identityHighDpi none 8 = some 0
      ∧ roundScaleFactor winRelease identityHighDpi HighDpiScaleFactorRoundingPolicy.Round
          (-3 / 2) = some 1 :=
  have h := release_defaults winRelease identityHighDpi HighDpiScaleFactorRoundingPolicy.Round
    8 8 { x := 4, y := 4 } {} {} {} [] (-3 / 2) rfl
  ⟨h.1, h.2.1, h.2.2.1, h.2.2.2.2.2.2.2.2.2.2.2.2 (by norm_num)⟩

/-- In a debug build the same calls abort on the failed assertion instead of returning. -/
theorem debug_aborts (b : Build) (hd : QHighDpi) (value : Int)
    (topLevelWindows : List (Option QWindow))
    (hdbg : b.QT_NO_DEBUG = false) :
    toNativePixels b hd none value = none
      ∧ fromNativePixels b hd none value = none
      ∧ findWindow b topLevelWindows 0 = none
      ∧ isThemeChangeEvent b none = none := by
  simp [toNativePixels, fromNativePixels, findWindow, isThemeChangeEvent, Q_ASSERT, hdbg]

/-! ## Theorems: system button icons -/

/-- With pairwise different enumerator values the table holds exactly the seven entries of
the source. -/
theorem g_fontIconsTable_eq (b : Build) (t : SystemButtonType)
    (hb : b.FRAMELESSHELPER_CORE_NO_BUNDLE_RESOURCE = false) (ht : t.distinct) :
    g_fontIconsTable b t =
      [ (t.Close, { segoe := 0xE8BB, micon := 0xEADA }),
        (t.Restore, { segoe := 0xE923, micon := 0xEAE2 }),
        (t.Maximize, { segoe := 0xE922, micon := 0xEADE }),
        (t.Minimize, { segoe := 0xE921, micon := 0xEAE0 }),
        (t.Help, { segoe := 0xE897, micon := 0xEC04 }),
        (t.WindowIcon, { segoe := 0xE756, micon := 0xEB06 }),
        (t.Unknown, { segoe := 0x0000, micon := 0x0000 }) ] := by
  simp only [SystemButtonType.distinct, List.nodup_cons, List.mem_cons, List.mem_singleton,
    not_or, List.not_mem_nil, not_false_eq_true, List.nodup_nil, and_true] at ht
  obtain ⟨⟨h12, h13, h14, h15, h16, h17⟩, ⟨h23, h24, h25, h26, h27⟩, ⟨h34, h35, h36, h37⟩,
    ⟨h45, h46, h47⟩, ⟨h56, h57⟩, h67⟩ := ht
  simp [g_fontIconsTable, hb, FontIconHash.ofList, FontIconHash.insert, List.filter, h12, h13,
    h14, h15, h16, h17, h23, h24, h25, h26, h27, h34, h35, h36, h37, h45, h46, h47, h56, h57,
    h67]

/-- Looking up the key at the head of the list finds its value. -/
theorem FontIconHash.find_cons_self (key : Int) (value : FONT_ICON) (h : FontIconHash) :
    FontIconHash.find ((key, value) :: h) key = some value := by
  simp [FontIconHash.find]

/-- Looking up another key skips the head of the list. -/
theorem FontIconHash.find_cons_of_ne (k key : Int) (value : FONT_ICON) (h : FontIconHash)
    (hne : k ≠ key) :
    FontIconHash.find ((k, value) :: h) key = FontIconHash.find h key := by
  have hb : (k == key) = false := by simpa using hne
  simp [FontIconHash.find, List.find?, hb]

/-- The result of `getSystemButtonIconCode` in terms of the table lookup. -/
theorem getSystemButtonIconCode_eq (b : Build) (t : SystemButtonType) (isWin10OrGreater : Bool)
    (button : Int) :
    getSystemButtonIconCode b t isWin10OrGreater button =
      match (g_fontIconsTable b t).find button with
      | none => some []
      | some icon =>
        some [if b.Q_OS_WINDOWS = true ∧ isWin10OrGreater = true then icon.segoe % 65536
          else icon.micon % 65536] := by
  unfold getSystemButtonIconCode
  cases hb : b.FRAMELESSHELPER_CORE_NO_BUNDLE_RESOURCE
  · cases hf : (g_fontIconsTable b t).find button with
    | none => simp [FontIconHash.contains, hf]
    | some icon =>
      cases b.Q_OS_WINDOWS <;> cases isWin10OrGreater <;>
        simp [FontIconHash.contains, FontIconHash.value, hf, QChar]
  · have hf : (g_fontIconsTable b t).find button = none := by
      simp [g_fontIconsTable, hb, FontIconHash.find]
    simp [hf]

/-- C9: `getSystemButtonIconCode` returns the empty string for every value without an entry
in the font-icon table, and for every value with an entry a string of exactly one UTF-16
code unit: the entry's Segoe code on Windows 10 or greater, the entry's Micon code
otherwise.  With the icon font bundled and pairwise different enumerator values, `Close`
maps to U+E8BB / U+EADA and `Minimize` to U+E921 / U+EAE0. -/
theorem getSystemButtonIconCode_spec (b : Build) (t : SystemButtonType)
    (isWin10OrGreater : Bool) (button : Int) :
    ((g_fontIconsTable b t).contains button = false →
        getSystemButtonIconCode b t isWin10OrGreater button = some [])
      ∧ (∀ icon, (g_fontIconsTable b t).find button = some icon →
          ∃ c, getSystemButtonIconCode b t isWin10OrGreater button = some [c]
            ∧ c < 65536
            ∧ (b.Q_OS_WINDOWS = true ∧ isWin10OrGreater = true → c = icon.segoe % 65536)
            ∧ (¬ (b.Q_OS_WINDOWS = true ∧ isWin10OrGreater = true) → c = icon.micon % 65536))
      ∧ (b.FRAMELESSHELPER_CORE_NO_BUNDLE_RESOURCE = false → t.distinct →
          (g_fontIconsTable b t).find t.Close = some { segoe := 0xE8BB, micon := 0xEADA }
            ∧ (g_fontIconsTable b t).find t.Minimize = some { segoe := 0xE921, micon := 0xEAE0 }
            ∧ getSystemButtonIconCode b t isWin10OrGreater t.Close
                = some [if b.Q_OS_WINDOWS = true ∧ isWin10OrGreater = true then 0xE8BB
                    else 0xEADA]
            ∧ getSystemButtonIconCode b t isWin10OrGreater t.Minimize
                = some [if b.Q_OS_WINDOWS = true ∧ isWin10OrGreater = true then 0xE921
                    else 0xEAE0]
            ∧ ∀ v ∈ [t.Unknown, t.WindowIcon, t.Help, t.Minimize, t.Maximize, t.Restore,
                t.Close], (g_fontIconsTable b t).contains v = true) := by
  refine ⟨?_, ?_, ?_⟩
  · intro hc
    have hf : (g_fontIconsTable b t).find button = none := by
      simpa [FontIconHash.contains] using hc
    rw [getSystemButtonIconCode_eq, hf]
  · intro icon hf
    rw [getSystemButtonIconCode_eq, hf]
    refine ⟨_, rfl, ?_, fun h => by rw [if_pos h], fun h => by rw [if_neg h]⟩
    split_ifs <;> exact Nat.mod_lt _ (by decide)
  · intro hb ht
    have hne := ht
    simp only [SystemButtonType.distinct, List.nodup_cons, List.mem_cons, List.mem_singleton,
      not_or, List.not_mem_nil, not_false_eq_true, List.nodup_nil, and_true] at hne
    obtain ⟨⟨h12, h13, h14, h15, h16, h17⟩, ⟨h23, h24, h25, h26, h27⟩, ⟨h34, h35, h36, h37⟩,
      ⟨h45, h46, h47⟩, ⟨h56, h57⟩, h67⟩ := hne
    have hClose : (g_fontIconsTable b t).find t.Close
        = some { segoe := 0xE8BB, micon := 0xEADA } := by
      rw [g_fontIconsTable_eq b t hb ht]
      simp [FontIconHash.find]
    have hMin : (g_fontIconsTable b t).find t.Minimize
        = some { segoe := 0xE921, micon := 0xEAE0 } := by
      rw [g_fontIconsTable_eq b t hb ht,
        FontIconHash.find_cons_of_ne _ _ _ _ (Ne.symm h47),
        FontIconHash.find_cons_of_ne _ _ _ _ (Ne.symm h46),
        FontIconHash.find_cons_of_ne _ _ _ _ (Ne.symm h45),
        FontIconHash.find_cons_self]
    refine ⟨hClose, hMin, ?_, ?_, ?_⟩
    · rw [getSystemButtonIconCode_eq, hClose]
      split_ifs <;> rfl
    · rw [getSystemButtonIconCode_eq, hMin]
      split_ifs <;> rfl
    · intro v hv
      rw [g_fontIconsTable_eq b t hb ht]
      simp only [List.mem_cons, List.mem_singleton, List.not_mem_nil, or_false] at hv
      have hs := FontIconHash.find_cons_self
      have hn := FontIconHash.find_cons_of_ne
      rcases hv with h | h | h | h | h | h | h <;> subst h
      · simp [FontIconHash.contains, hs, hn _ _ _ _ (Ne.symm h17), hn _ _ _ _ (Ne.symm h16),
          hn _ _ _ _ (Ne.symm h15), hn _ _ _ _ (Ne.symm h14), hn _ _ _ _ (Ne.symm h13),
          hn _ _ _ _ (Ne.symm h12)]
      · simp [FontIconHash.contains, hs, hn _ _ _ _ (Ne.symm h27), hn _ _ _ _ (Ne.symm h26),
          hn _ _ _ _ (Ne.symm h25), hn _ _ _ _ (Ne.symm h24), hn _ _ _ _ (Ne.symm h23)]
      · simp [FontIconHash.contains, hs, hn _ _ _ _ (Ne.symm h37), hn _ _ _ _ (Ne.symm h36),
          hn _ _ _ _ (Ne.symm h35), hn _ _ _ _ (Ne.symm h34)]
      · simp [FontIconHash.contains, hs, hn _ _ _ _ (Ne.symm h47), hn _ _ _ _ (Ne.symm h46),
          hn _ _ _ _ (Ne.symm h45)]
      · simp [FontIconHash.contains, hs, hn _ _ _ _ (Ne.symm h57), hn _ _ _ _ (Ne.symm h56)]
      · simp [FontIconHash.contains, hs, hn _ _ _ _ (Ne.symm h67)]
      · simp [FontIconHash.contains, hs]

/-- C9 with the enumerator values `-1, 0, ..., 5` on a Windows build running Windows 10 or
greater: the value 6 has no entry and yields the empty string; `Close` (5) and `Minimize`
(2) yield their Segoe codes. -/
theorem getSystemButtonIconCode_spec_witness :
    getSystemButtonIconCode winRelease sampleButtons true 6 = some []
      ∧ getSystemButtonIconCode winRelease sampleButtons true sampleButtons.Close
          = some [0xE8BB]
      ∧ getSystemButtonIconCode winRelease sampleButtons true sampleButtons.Minimize
          = some [0xE921] :=
  ⟨(getSystemButtonIconCode_spec winRelease sampleButtons true 6).1 (by decide),
    ((getSystemButtonIconCode_spec winRelease sampleButtons true 0).2.2 rfl (by decide)).2.2.1,
    ((getSystemButtonIconCode_spec winRelease sampleButtons true 0).2.2 rfl
      (by decide)).2.2.2.1⟩

/-! ## Theorems: the per-window record -/

/-- C10: a default-constructed `WinNativeEventFilter::WINDOW` has its six booleans false,
`borderWidth = borderHeight = titleBarHeight = -1`, its four lists empty, and `maximumSize`
and `minimumSize` equal to the default-constructed size. -/
theorem WINDOW_default :
    (({} : WINDOW).initialized = false ∧ ({} : WINDOW).fixedSize = false
        ∧ ({} : WINDOW).mouseTransparent = false
        ∧ ({} : WINDOW).restoreDefaultWindowStyle = false
        ∧ ({} : WINDOW).enableLayeredWindow = false ∧ ({} : WINDOW).disableTitleBar = false)
      ∧ (({} : WINDOW).borderWidth = -1 ∧ ({} : WINDOW).borderHeight = -1
        ∧ ({} : WINDOW).titleBarHeight = -1)
      ∧ (({} : WINDOW).ignoreAreas = [] ∧ ({} : WINDOW).draggableAreas = []
        ∧ ({} : WINDOW).ignoreObjects = [] ∧ ({} : WINDOW).draggableObjects = [])
      ∧ (({} : WINDOW).maximumSize = ({} : QSize) ∧ ({} : WINDOW).minimumSize = ({} : QSize)) := by
  decide

/-! ## Theorems: the window registry -/

/-- Updating the records stored under a key that is present leaves the new record as the
first one found under that key. -/
theorem find_map_update (l : List (Nat × WINDOW)) (handle : Nat) (config : WINDOW)
    (hany : (l.any fun e => e.1 == handle) = true) :
    ((l.map fun e => if e.1 == handle then (handle, config) else e).find?
      fun e => e.1 == handle) = some (handle, config) := by
  induction l with
  | nil => simp at hany
  | cons e l ih =>
    by_cases he : e.1 = handle
    · simp [List.find?, he]
    · have hb : (e.1 == handle) = false := by simpa using he
      have hany2 : (l.any fun e => e.1 == handle) = true := by
        simpa [List.any_cons, hb] using hany
      simp only [List.map_cons, hb, Bool.false_eq_true, if_false, List.find?]
      exact ih hany2

/-- C11: for every window handle `h` and every configuration `cfg`, after
`addFramelessWindow(h, cfg)` the record returned by `windowData(h)` is non-null and equal to
`cfg`, whatever the registry held before and whatever the positioning arguments.  (With a
null configuration the record returned is the default-constructed one.) -/
theorem addFramelessWindow_windowData (b : Build) (st : FilterState) (h : Nat) (cfg : WINDOW)
    (center : Bool) (x y width height : Int) :
    (∃ st2, addFramelessWindow b st (some h) (some cfg) center x y width height = some st2
        ∧ windowData b st2 (some h) = some (some cfg))
      ∧ (∃ st2, addFramelessWindow b st (some h) none center x y width height = some st2
        ∧ windowData b st2 (some h) = some (some {})) := by
  have key : ∀ config : WINDOW,
      windowData b
        { registry :=
            if (st.registry.any fun e => e.1 == h) then
              st.registry.map fun e => if e.1 == h then (h, config) else e
            else (h, config) :: st.registry,
          installed := true } (some h) = some (some config) := by
    intro config
    simp only [windowData, Q_ASSERT, Option.isSome_some, Bool.or_true, if_true,
      Option.some_bind]
    by_cases hany : (st.registry.any fun e => e.1 == h) = true
    · rw [if_pos hany, find_map_update st.registry h config hany]
      rfl
    · rw [if_neg hany]
      simp [List.find?]
  refine ⟨⟨_, ?_, key cfg⟩, ⟨_, ?_, key {}⟩⟩
  · simp [addFramelessWindow, Q_ASSERT]
  · simp [addFramelessWindow, Q_ASSERT]

/-! ## Theorems: when a window is moved -/

/-- The result of `moveWindowToDesktopCenter` when the three callbacks are non-null, the
window size is usable and a screen is found: `setWindowPosition` applied once to the state. -/
theorem moveWindowToDesktopCenter_some {σ : Type} (b : Build) (kDefaultWindowSize : QSize)
    (primaryScreen : Option QScreen) (getScreen : σ → Option QScreen) (getSize : σ → QSize)
    (setPosition : QPoint → σ → σ) (considerTaskBar : Bool) (st : σ) (scr : QScreen)
    (hne : (getSize st).isEmpty = false) (hdef : getSize st ≠ kDefaultWindowSize)
    (hscr : getScreen st = some scr ∨ (getScreen st = none ∧ primaryScreen = some scr)) :
    ∃ p, moveWindowToDesktopCenter b kDefaultWindowSize primaryScreen (some getScreen)
        (some getSize) (some setPosition) considerTaskBar st = some (setPosition p st) := by
  have hs : (match getScreen st with
      | some s => some s
      | none => primaryScreen) = some scr := by
    rcases hscr with h | ⟨h1, h2⟩
    · rw [h]
    · rw [h1]; exact h2
  have hdef2 : (getSize st == kDefaultWindowSize) = false := by
    simpa using hdef
  simp only [moveWindowToDesktopCenter, Q_ASSERT, Option.isSome_some, Bool.or_true,
    if_true, Option.some_bind, hne, hdef2, Bool.or_false, Bool.false_eq_true, if_false, hs]
  exact ⟨_, rfl⟩

/-- The traced call with three non-null callbacks, a usable window size and a screen: one
position is recorded. -/
theorem traced_of_canCenter {σ : Type} (b : Build) (kDefaultWindowSize : QSize)
    (primaryScreen : Option QScreen) (getScreen : σ → Option QScreen) (getSize : σ → QSize)
    (setPosition : QPoint → σ → σ) (considerTaskBar : Bool) (st : σ) (scr : QScreen)
    (hne : (getSize st).isEmpty = false) (hdef : getSize st ≠ kDefaultWindowSize)
    (hscr : getScreen st = some scr ∨ (getScreen st = none ∧ primaryScreen = some scr)) :
    ∃ p, moveWindowToDesktopCenterTraced b kDefaultWindowSize primaryScreen (some getScreen)
        (some getSize) (some setPosition) considerTaskBar st = some (setPosition p st, [p]) := by
  obtain ⟨p, h⟩ := moveWindowToDesktopCenter_some b kDefaultWindowSize
    primaryScreen (fun (s : σ × List QPoint) => getScreen s.1)
    (fun (s : σ × List QPoint) => getSize s.1)
    (fun p (s : σ × List QPoint) => (setPosition p s.1, p :: s.2)) considerTaskBar (st, []) scr
    hne hdef hscr
  exact ⟨p, h⟩

/-- The traced call when the window is not to be moved: in a release build it returns with
the state unchanged and nothing recorded; in a debug build it does so or aborts. -/
theorem traced_of_not_canCenter {σ : Type} (b : Build) (kDefaultWindowSize : QSize)
    (primaryScreen : Option QScreen) (getWindowScreen : Option (σ → Option QScreen))
    (getWindowSize : Option (σ → QSize)) (setWindowPosition : Option (QPoint → σ → σ))
    (considerTaskBar : Bool) (st : σ)
    (hnot : ¬ canCenter kDefaultWindowSize primaryScreen getWindowScreen getWindowSize
      setWindowPosition st) :
    (moveWindowToDesktopCenterTraced b kDefaultWindowSize primaryScreen getWindowScreen
        getWindowSize setWindowPosition considerTaskBar st = none
      ∨ moveWindowToDesktopCenterTraced b kDefaultWindowSize primaryScreen getWindowScreen
        getWindowSize setWindowPosition considerTaskBar st = some (st, []))
    ∧ (b.QT_NO_DEBUG = true →
      moveWindowToDesktopCenterTraced b kDefaultWindowSize primaryScreen getWindowScreen
        getWindowSize setWindowPosition considerTaskBar st = some (st, [])) := by
  rcases getWindowScreen with _ | getScreen
  · cases hdbg : b.QT_NO_DEBUG <;>
      simp [moveWindowToDesktopCenterTraced, moveWindowToDesktopCenter, Q_ASSERT, hdbg]
  rcases getWindowSize with _ | getSize
  · cases hdbg : b.QT_NO_DEBUG <;>
      simp [moveWindowToDesktopCenterTraced, moveWindowToDesktopCenter, Q_ASSERT, hdbg]
  rcases setWindowPosition with _ | setPosition
  · cases hdbg : b.QT_NO_DEBUG <;>
      simp [moveWindowToDesktopCenterTraced, moveWindowToDesktopCenter, Q_ASSERT, hdbg]
  by_cases hE : (getSize st).isEmpty = true
  · simp [moveWindowToDesktopCenterTraced, moveWindowToDesktopCenter, Q_ASSERT, hE]
  by_cases hD : getSize st = kDefaultWindowSize
  · simp [moveWindowToDesktopCenterTraced, moveWindowToDesktopCenter, Q_ASSERT, hD]
  have hE2 : (getSize st).isEmpty = false := by simpa using hE
  cases hgs : getScreen st with
  | some scr =>
    exact absurd ⟨getScreen, getSize, setPosition, scr, rfl, rfl, rfl, hE2, hD, Or.inl hgs⟩ hnot
  | none =>
    cases hp : primaryScreen with
    | some scr =>
      exact absurd
        ⟨getScreen, getSize, setPosition, scr, rfl, rfl, rfl, hE2, hD, Or.inr ⟨hgs, hp⟩⟩ hnot
    | none =>
      cases hdbg : b.QT_NO_DEBUG <;>
        simp [moveWindowToDesktopCenterTraced, moveWindowToDesktopCenter, Q_ASSERT, hE2, hD,
          hgs, hdbg]

/-- In a debug build the call aborts exactly in the cases the assertions guard: a null
callback, or a usable window size with no screen to be found. -/
theorem moveWindowToDesktopCenter_debug_cases {σ : Type} (b : Build)
    (kDefaultWindowSize : QSize) (primaryScreen : Option QScreen)
    (getWindowScreen : Option (σ → Option QScreen)) (getWindowSize : Option (σ → QSize))
    (setWindowPosition : Option (QPoint → σ → σ)) (considerTaskBar : Bool) (st : σ)
    (hdbg : b.QT_NO_DEBUG = false) :
    ((getWindowScreen = none ∨ getWindowSize = none ∨ setWindowPosition = none) →
        moveWindowToDesktopCenter b kDefaultWindowSize primaryScreen getWindowScreen
          getWindowSize setWindowPosition considerTaskBar st = none)
      ∧ (∀ getScreen getSize setPosition, getWindowScreen = some getScreen →
          getWindowSize = some getSize → setWindowPosition = some setPosition →
          ((getSize st).isEmpty = true ∨ getSize st = kDefaultWindowSize) →
          moveWindowToDesktopCenter b kDefaultWindowSize primaryScreen getWindowScreen
            getWindowSize setWindowPosition considerTaskBar st = some st)
      ∧ (∀ getScreen getSize setPosition, getWindowScreen = some getScreen →
          getWindowSize = some getSize → setWindowPosition = some setPosition →
          (getSize st).isEmpty = false → getSize st ≠ kDefaultWindowSize →
          getScreen st = none → primaryScreen = none →
          moveWindowToDesktopCenter b kDefaultWindowSize primaryScreen getWindowScreen
            getWindowSize setWindowPosition considerTaskBar st = none) := by
  refine ⟨?_, ?_, ?_⟩
  · intro h
    rcases getWindowScreen with _ | getScreen
    · simp [moveWindowToDesktopCenter, Q_ASSERT, hdbg]
    rcases getWindowSize with _ | getSize
    · simp [moveWindowToDesktopCenter, Q_ASSERT, hdbg]
    rcases setWindowPosition with _ | setPosition
    · simp [moveWindowToDesktopCenter, Q_ASSERT, hdbg]
    rcases h with h | h | h <;> cases h
  · intro getScreen getSize setPosition h1 h2 h3 hsize
    subst h1 h2 h3
    rcases hsize with h | h
    · simp [moveWindowToDesktopCenter, Q_ASSERT, h]
    · simp [moveWindowToDesktopCenter, Q_ASSERT, h]
  · intro getScreen getSize setPosition h1 h2 h3 hne hdef hgs hp
    subst h1 h2 h3
    simp [moveWindowToDesktopCenter, Q_ASSERT, hdbg, hne, hdef, hgs, hp]

/-- C12, as stated, fails in a debug build: with a null `setWindowPosition` callback the
condition for moving the window does not hold, yet the call does not return; it aborts on
the assertion `Q_ASSERT(setWindowPosition)`. -/
theorem moveWindowToDesktopCenter_debug_aborts :
    ¬ canCenter { width := 160, height := 160 } (some sampleScreen)
        (some fun (_ : Unit) => some sampleScreen)
        (some fun (_ : Unit) => ({ width := 801, height := 600 } : QSize)) none ()
      ∧ moveWindowToDesktopCenter linuxDebug { width := 160, height := 160 }
          (some sampleScreen) (some fun (_ : Unit) => some sampleScreen)
          (some fun (_ : Unit) => ({ width := 801, height := 600 } : QSize)) none true ()
        = none := by
  refine ⟨?_, rfl⟩
  rintro ⟨_, _, _, _, _, _, h, _⟩
  cases h

/-- C12 (amended): `moveWindowToDesktopCenter` invokes `setWindowPosition` (once) if and only
if all three callbacks are non-null, the size returned by `getWindowSize` is non-empty and
differs from `kDefaultWindowSize`, and a screen is available (from `getWindowScreen` or,
failing that, the primary screen).  In every other case `setWindowPosition` is not invoked
and the state is unchanged: in a release build the call returns; in a debug build it returns
or aborts on a failed assertion.  It is never invoked more than once. -/
theorem moveWindowToDesktopCenter_invokes_iff {σ : Type} (b : Build)
    (kDefaultWindowSize : QSize) (primaryScreen : Option QScreen)
    (getWindowScreen : Option (σ → Option QScreen)) (getWindowSize : Option (σ → QSize))
    (setWindowPosition : Option (QPoint → σ → σ)) (considerTaskBar : Bool) (st : σ) :
    ((∃ r p, moveWindowToDesktopCenterTraced b kDefaultWindowSize primaryScreen
          getWindowScreen getWindowSize setWindowPosition considerTaskBar st = some (r, [p]))
        ↔ canCenter kDefaultWindowSize primaryScreen getWindowScreen getWindowSize
            setWindowPosition st)
      ∧ (¬ canCenter kDefaultWindowSize primaryScreen getWindowScreen getWindowSize
            setWindowPosition st →
          moveWindowToDesktopCenterTraced b kDefaultWindowSize primaryScreen getWindowScreen
              getWindowSize setWindowPosition considerTaskBar st = none
            ∨ moveWindowToDesktopCenterTraced b kDefaultWindowSize primaryScreen
              getWindowScreen getWindowSize setWindowPosition considerTaskBar st
              = some (st, []))
      ∧ (b.QT_NO_DEBUG = true →
          ¬ canCenter kDefaultWindowSize primaryScreen getWindowScreen getWindowSize
            setWindowPosition st →
          moveWindowToDesktopCenterTraced b kDefaultWindowSize primaryScreen getWindowScreen
            getWindowSize setWindowPosition considerTaskBar st = some (st, []))
      ∧ (∀ r trace, moveWindowToDesktopCenterTraced b kDefaultWindowSize primaryScreen
            getWindowScreen getWindowSize setWindowPosition considerTaskBar st
            = some (r, trace) → trace.length ≤ 1) := by
  have hyes : canCenter kDefaultWindowSize primaryScreen getWindowScreen getWindowSize
      setWindowPosition st →
      ∃ r p, moveWindowToDesktopCenterTraced b kDefaultWindowSize primaryScreen
          getWindowScreen getWindowSize setWindowPosition considerTaskBar st
          = some (r, [p]) := by
    rintro ⟨getScreen, getSize, setPosition, scr, h1, h2, h3, hne, hdef, hscr⟩
    subst h1 h2 h3
    obtain ⟨p, hp⟩ := traced_of_canCenter b kDefaultWindowSize primaryScreen getScreen
      getSize setPosition considerTaskBar st scr hne hdef hscr
    exact ⟨_, p, hp⟩
  refine ⟨⟨?_, hyes⟩, ?_, ?_, ?_⟩
  · rintro ⟨r, p, hrun⟩
    by_contra hnot
    rcases (traced_of_not_canCenter b kDefaultWindowSize primaryScreen getWindowScreen
      getWindowSize setWindowPosition considerTaskBar st hnot).1 with h | h
    · rw [h] at hrun; cases hrun
    · rw [h] at hrun; cases hrun
  · intro hnot
    exact (traced_of_not_canCenter b kDefaultWindowSize primaryScreen getWindowScreen
      getWindowSize setWindowPosition considerTaskBar st hnot).1
  · intro hrel hnot
    exact (traced_of_not_canCenter b kDefaultWindowSize primaryScreen getWindowScreen
      getWindowSize setWindowPosition considerTaskBar st hnot).2 hrel
  · intro r trace hrun
    by_cases hc : canCenter kDefaultWindowSize primaryScreen getWindowScreen getWindowSize
        setWindowPosition st
    · obtain ⟨r2, p, hp⟩ := hyes hc
      rw [hp] at hrun
      cases hrun
      simp
    · rcases (traced_of_not_canCenter b kDefaultWindowSize primaryScreen getWindowScreen
        getWindowSize setWindowPosition considerTaskBar st hc).1 with h | h
      · rw [h] at hrun; cases hrun
      · rw [h] at hrun
        cases hrun
        simp

/-- The amended C12 on a release build: an 801x600 window on `sampleScreen` is moved once;
with a null `setWindowPosition` the call returns and nothing is moved. -/
theorem moveWindowToDesktopCenter_invokes_iff_witness :
    (∃ r p, moveWindowToDesktopCenterTraced winRelease { width := 160, height := 160 } none
        (some fun (_ : Unit) => some sampleScreen)
        (some fun (_ : Unit) => ({ width := 801, height := 600 } : QSize))
        (some fun (_ : QPoint) (u : Unit) => u) true () = some (r, [p]))
      ∧ moveWindowToDesktopCenterTraced winRelease { width := 160, height := 160 } none
          (some fun (_ : Unit) => some sampleScreen)
          (some fun (_ : Unit) => ({ width := 801, height := 600 } : QSize))
          none true () = some ((), []) :=
  ⟨(moveWindowToDesktopCenter_invokes_iff winRelease { width := 160, height := 160 } none
      (some fun (_ : Unit) => some sampleScreen)
      (some fun (_ : Unit) => ({ width := 801, height := 600 } : QSize))
      (some fun (_ : QPoint) (u : Unit) => u) true ()).1.2
      ⟨_, _, _, sampleScreen, rfl, rfl, rfl, by decide, by decide, Or.inl rfl⟩,
    (moveWindowToDesktopCenter_invokes_iff winRelease { width := 160, height := 160 } none
      (some fun (_ : Unit) => some sampleScreen)
      (some fun (_ : Unit) => ({ width := 801, height := 600 } : QSize))
      none true ()).2.2.1 rfl
      (by rintro ⟨_, _, _, _, _, _, h, _⟩; cases h)⟩

/-! ## Theorems: agreement of cursor shape and edges -/

/-- C13: `calculateCursorShape` and `calculateWindowEdges` agree on every window and every
point: the cursor is `ArrowCursor` iff the edge set is empty; it is diagonal iff the edge set
contains at least one of `Left`/`Right` and at least one of `Top`/`Bottom`; it is
`SizeHorCursor` iff the edge set is non-empty and contains only `Left`/`Right`; it is
`SizeVerCursor` iff the edge set is non-empty and contains only `Top`/`Bottom`.  For a window
that is not `Windowed` both report no resize zone. -/
theorem calculate_agree (b : Build) (k : Int) (win : QWindow) (pos : QPoint) :
    ∃ c e, calculateCursorShape b k (some win) pos = some c
      ∧ calculateWindowEdges b k (some win) pos = some e
      ∧ cursorAgreesWithEdges c e
      ∧ (win.visibility ≠ Visibility.Windowed → c = CursorShape.ArrowCursor ∧ e = 0) := by
  cases hmac : b.Q_OS_MACOS
  · by_cases hvis : win.visibility = Visibility.Windowed
    · refine ⟨_, _, calculateCursorShape_windowed b k win pos hmac hvis,
        calculateWindowEdges_windowed b k win pos hmac hvis, ?_, fun h => absurd hvis h⟩
      by_cases a1 : pos.x < k <;> by_cases a2 : pos.x ≥ win.width - k
        <;> by_cases a3 : pos.y < k <;> by_cases a4 : pos.y ≥ win.height - k
        <;> simp only [a1, a2, a3, a4, if_true, if_false, true_and, and_true, false_and,
          and_false, true_or, or_true, false_or, or_false, or_self, and_self]
        <;> decide
    · refine ⟨CursorShape.ArrowCursor, 0, ?_, ?_, by decide, fun _ => ⟨rfl, rfl⟩⟩
      · simp [calculateCursorShape, Q_ASSERT, hmac, hvis]
      · simp [calculateWindowEdges, Q_ASSERT, hmac, hvis]
  · exact ⟨CursorShape.ArrowCursor, 0, (calculate_macos b k (some win) pos hmac).1,
      (calculate_macos b k (some win) pos hmac).2, by decide, fun _ => ⟨rfl, rfl⟩⟩

/-! ## Theorems: window states -/

/-- A flag set has a bit in common with the single flag `2 ^ i` iff its bit `i` is set. -/
theorem and_two_pow_ne_zero (n i : Nat) : n &&& 2 ^ i ≠ 0 ↔ n.testBit i = true := by
  rw [Nat.and_two_pow]
  cases n.testBit i <;> simp

/-- The function `windowStatesToWindowState` in terms of the bits 2, 1 and 0 of the flag
set. -/
theorem windowStatesToWindowState_eq (states : Nat) :
    windowStatesToWindowState states =
      if states.testBit 2 = true then WindowState.WindowFullScreen
      else if states.testBit 1 = true then WindowState.WindowMaximized
      else if states.testBit 0 = true then WindowState.WindowMinimized
      else WindowState.WindowNoState := by
  have h4 := and_two_pow_ne_zero states 2
  have h2 := and_two_pow_ne_zero states 1
  have h1 := and_two_pow_ne_zero states 0
  simp only [Nat.reducePow] at h4 h2 h1
  unfold windowStatesToWindowState
  simp only [WindowState.toFlags, h4, h2, h1]

/-- A flag set disjoint from the three flags has its bits 0, 1 and 2 clear. -/
theorem testBit_of_and_seven (other : Nat) (h : other &&& 7 = 0) :
    other.testBit 0 = false ∧ other.testBit 1 = false ∧ other.testBit 2 = false := by
  have h0 := congrArg (fun n => n.testBit 0) h
  have h1 := congrArg (fun n => n.testBit 1) h
  have h2 := congrArg (fun n => n.testBit 2) h
  simp only [Nat.testBit_and, Nat.zero_testBit] at h0 h1 h2
  have e0 : Nat.testBit 7 0 = true := by decide
  have e1 : Nat.testBit 7 1 = true := by decide
  have e2 : Nat.testBit 7 2 = true := by decide
  rw [e0, Bool.and_true] at h0
  rw [e1, Bool.and_true] at h1
  rw [e2, Bool.and_true] at h2
  exact ⟨h0, h1, h2⟩

/-- Flags other than the three do not change the result. -/
theorem windowStatesToWindowState_or (states other : Nat) (h : other &&& 7 = 0) :
    windowStatesToWindowState (states ||| other) = windowStatesToWindowState states := by
  obtain ⟨h0, h1, h2⟩ := testBit_of_and_seven other h
  simp only [windowStatesToWindowState_eq, Nat.testBit_or, h0, h1, h2, Bool.or_false]

/-- Converting the result back to a flag set and applying the function again changes
nothing. -/
theorem windowStatesToWindowState_idem (states : Nat) :
    windowStatesToWindowState (windowStatesToWindowState states).toFlags
      = windowStatesToWindowState states := by
  rw [windowStatesToWindowState_eq states]
  split_ifs <;> decide
/-- C15: for every set of window-state flags, `windowStatesToWindowState` returns
`WindowFullScreen` if the full-screen flag is set; otherwise `WindowMaximized` if the
maximized flag is set; otherwise `WindowMinimized` if the minimized flag is set; otherwise
`WindowNoState`.  The result does not depend on any other flag (such as `WindowActive`), and
applying the function to its own result returns that result; hence `isNormal()` is true
exactly when none of the three flags is set, and `isZoomed()` implies not `isNormal()`. -/
theorem windowStatesToWindowState_spec (states : Nat) (w : FramelessMainWindow) :
    (states &&& 4 ≠ 0 → windowStatesToWindowState states = WindowState.WindowFullScreen)
      ∧ (states &&& 4 = 0 → states &&& 2 ≠ 0 →
          windowStatesToWindowState states = WindowState.WindowMaximized)
      ∧ (states &&& 4 = 0 → states &&& 2 = 0 → states &&& 1 ≠ 0 →
          windowStatesToWindowState states = WindowState.WindowMinimized)
      ∧ (states &&& 4 = 0 → states &&& 2 = 0 → states &&& 1 = 0 →
          windowStatesToWindowState states = WindowState.WindowNoState)
      ∧ (∀ other, other &&& 7 = 0 →
          windowStatesToWindowState (states ||| other) = windowStatesToWindowState states)
      ∧ windowStatesToWindowState (states ||| WindowState.WindowActive.toFlags)
          = windowStatesToWindowState states
      ∧ windowStatesToWindowState (windowStatesToWindowState states).toFlags
          = windowStatesToWindowState states
      ∧ (w.isNormal = true ↔
          (w.windowState &&& 4 = 0 ∧ w.windowState &&& 2 = 0 ∧ w.windowState &&& 1 = 0))
      ∧ (w.isZoomed = true → w.isNormal = false) := by
  refine ⟨?_, ?_, ?_, ?_, windowStatesToWindowState_or states, ?_,
    windowStatesToWindowState_idem states, ?_, ?_⟩
  · intro h4
    simp [windowStatesToWindowState, WindowState.toFlags, h4]
  · intro h4 h2
    simp [windowStatesToWindowState, WindowState.toFlags, h4, h2]
  · intro h4 h2 h1
    simp only [windowStatesToWindowState, WindowState.toFlags, h4, h2, h1, ne_eq,
      not_true_eq_false, not_false_eq_true, if_true, if_false]
  · intro h4 h2 h1
    simp only [windowStatesToWindowState, WindowState.toFlags, h4, h2, h1, ne_eq,
      not_true_eq_false, not_false_eq_true, if_true, if_false]
  · exact windowStatesToWindowState_or states _ (by decide)
  · unfold FramelessMainWindow.isNormal windowStatesToWindowState
    simp only [WindowState.toFlags]
    by_cases h4 : w.windowState &&& 4 = 0 <;> by_cases h2 : w.windowState &&& 2 = 0
      <;> by_cases h1 : w.windowState &&& 1 = 0 <;> simp [h4, h2, h1]
  · unfold FramelessMainWindow.isZoomed FramelessMainWindow.isMaximized
      FramelessMainWindow.isFullScreen FramelessMainWindow.isNormal windowStatesToWindowState
    simp only [WindowState.toFlags]
    by_cases h4 : w.windowState &&& 4 = 0 <;> by_cases h2 : w.windowState &&& 2 = 0
      <;> simp [h4, h2]

/-- C15 for the flag set `Maximized | Active` (`0xA`) and a window in that state: the result
is `WindowMaximized`, the window is zoomed and not normal. -/
theorem windowStatesToWindowState_spec_witness :
    windowStatesToWindowState 10 = WindowState.WindowMaximized
      ∧ FramelessMainWindow.isNormal
          { windowState := 10, savedWindowState := WindowState.WindowNoState, calls := [] }
        = false :=
  ⟨(windowStatesToWindowState_spec 10
      { windowState := 10, savedWindowState := WindowState.WindowNoState, calls := [] }).2.1
      (by decide) (by decide),
    (windowStatesToWindowState_spec 10
      { windowState := 10, savedWindowState := WindowState.WindowNoState,
        calls := [] }).2.2.2.2.2.2.2.2 (by decide)⟩

/-! ## Theorems: toggling full screen -/

/-- Without the full-screen flag the result of `windowStatesToWindowState` is one of
`WindowNoState`, `WindowMinimized`, `WindowMaximized`. -/
theorem windowStatesToWindowState_of_not_fullScreen (states : Nat) (h : states &&& 4 = 0) :
    windowStatesToWindowState states = WindowState.WindowNoState
      ∨ windowStatesToWindowState states = WindowState.WindowMinimized
      ∨ windowStatesToWindowState states = WindowState.WindowMaximized := by
  unfold windowStatesToWindowState
  simp only [WindowState.toFlags, h, ne_eq, not_true_eq_false, if_false]
  split_ifs <;> simp

/-- A window state other than `WindowFullScreen` lacks the full-screen flag. -/
theorem toFlags_and_four (state : WindowState) (h : state ≠ WindowState.WindowFullScreen) :
    state.toFlags &&& 4 = 0 := by
  cases state with
  | WindowFullScreen => exact absurd rfl h
  | WindowNoState => decide
  | WindowMinimized => decide
  | WindowMaximized => decide
  | WindowActive => decide

/-- The window component of the instrumented run is the plain run. -/
theorem foldl_stepEntry_fst (q : QWidgetOps) (steps : List Step) (w : FramelessMainWindow)
    (e : Option Nat) :
    (steps.foldl (FramelessMainWindow.stepEntry q) (w, e)).1 = w.run q steps := by
  induction steps generalizing w e with
  | nil => rfl
  | cons s steps ih =>
    cases s with
    | toggle =>
      simp only [List.foldl_cons, FramelessMainWindow.stepEntry, FramelessMainWindow.run,
        FramelessMainWindow.step]
      exact ih _ _
    | external states =>
      simp only [List.foldl_cons, FramelessMainWindow.stepEntry, FramelessMainWindow.run,
        FramelessMainWindow.step]
      exact ih _ _

/-- The invariant of the instrumented run: the saved state is never `WindowFullScreen`, it
stays among the three restorable states if it starts there, and it is the conversion of the
flags seen at the most recent entry into full screen, which lack the full-screen flag. -/
theorem foldl_stepEntry_invariant (q : QWidgetOps) (w0 : FramelessMainWindow)
    (steps : List Step) (h0 : w0.savedWindowState ≠ WindowState.WindowFullScreen) :
    (steps.foldl (FramelessMainWindow.stepEntry q) (w0, none)).1.savedWindowState
        ≠ WindowState.WindowFullScreen
      ∧ ((w0.savedWindowState = WindowState.WindowNoState
            ∨ w0.savedWindowState = WindowState.WindowMinimized
            ∨ w0.savedWindowState = WindowState.WindowMaximized) →
          ((steps.foldl (FramelessMainWindow.stepEntry q) (w0, none)).1.savedWindowState
              = WindowState.WindowNoState
            ∨ (steps.foldl (FramelessMainWindow.stepEntry q) (w0, none)).1.savedWindowState
              = WindowState.WindowMinimized
            ∨ (steps.foldl (FramelessMainWindow.stepEntry q) (w0, none)).1.savedWindowState
              = WindowState.WindowMaximized))
      ∧ (steps.foldl (FramelessMainWindow.stepEntry q) (w0, none)).1.savedWindowState
          = (match (steps.foldl (FramelessMainWindow.stepEntry q) (w0, none)).2 with
            | some states => windowStatesToWindowState states
            | none => w0.savedWindowState)
      ∧ (∀ states, (steps.foldl (FramelessMainWindow.stepEntry q) (w0, none)).2 = some states →
          states &&& 4 = 0) := by
  induction steps using List.reverseRecOn with
  | nil => exact ⟨h0, fun h => h, rfl, fun _ h => by cases h⟩
  | append_singleton steps s ih =>
    obtain ⟨i1, i2, i3, i4⟩ := ih
    rw [List.foldl_append, List.foldl_cons, List.foldl_nil]
    generalize steps.foldl (FramelessMainWindow.stepEntry q) (w0, none) = p at i1 i2 i3 i4
    obtain ⟨w, e⟩ := p
    cases s with
    | external states => exact ⟨i1, i2, i3, i4⟩
    | toggle =>
      by_cases hfs : w.isFullScreen = true
      · simp only [FramelessMainWindow.stepEntry, FramelessMainWindow.toggleFullScreen, hfs,
          if_true]
        exact ⟨i1, i2, i3, i4⟩
      · have hbit : w.windowState &&& 4 = 0 := by
          simpa [FramelessMainWindow.isFullScreen, WindowState.toFlags] using hfs
        have h3 := windowStatesToWindowState_of_not_fullScreen w.windowState hbit
        simp only [FramelessMainWindow.stepEntry, FramelessMainWindow.toggleFullScreen, hfs,
          Bool.false_eq_true, if_false]
        refine ⟨?_, fun _ => h3, trivial, ?_⟩
        · rcases h3 with h | h | h <;> rw [h] <;> decide
        · intro states hs
          cases hs
          exact hbit

/-- C14, as stated, fails when the saved window state starts as `WindowActive`, which is
not `WindowFullScreen`: after one call of `toggleFullScreen` on a full-screen window the
saved state is still `WindowActive`, not one of `WindowNoState`, `WindowMinimized`,
`WindowMaximized`. -/
theorem toggleFullScreen_saved_active :
    fullScreenSavedActive.savedWindowState ≠ WindowState.WindowFullScreen
      ∧ (fullScreenSavedActive.run qtWidgetOps [Step.toggle]).savedWindowState
          = WindowState.WindowActive
      ∧ ¬ ((fullScreenSavedActive.run qtWidgetOps [Step.toggle]).savedWindowState
            = WindowState.WindowNoState
          ∨ (fullScreenSavedActive.run qtWidgetOps [Step.toggle]).savedWindowState
            = WindowState.WindowMinimized
          ∨ (fullScreenSavedActive.run qtWidgetOps [Step.toggle]).savedWindowState
            = WindowState.WindowMaximized) := by
  decide

/-- C14 (amended): starting from a `FramelessMainWindow` whose `savedWindowState` is not
`WindowFullScreen`, after any sequence of `toggleFullScreen` calls (and of changes of the
window state from outside) `savedWindowState` is never `WindowFullScreen`; it is one of
`WindowNoState`, `WindowMinimized`, `WindowMaximized` if it started as one of them or once
`toggleFullScreen` has entered full screen.  Consequently every `toggleFullScreen` call made
while the window is full screen passes `setWindowState` a state without the full-screen
flag, namely `windowStatesToWindowState` of the window state seen by the most recent call
that entered full screen, or the initial `savedWindowState` if there has been none. -/
theorem toggleFullScreen_saved (q : QWidgetOps) (w0 : FramelessMainWindow)
    (steps : List Step) (h0 : w0.savedWindowState ≠ WindowState.WindowFullScreen) :
    (w0.run q steps).savedWindowState ≠ WindowState.WindowFullScreen
      ∧ ((w0.savedWindowState = WindowState.WindowNoState
            ∨ w0.savedWindowState = WindowState.WindowMinimized
            ∨ w0.savedWindowState = WindowState.WindowMaximized) →
          ((w0.run q steps).savedWindowState = WindowState.WindowNoState
            ∨ (w0.run q steps).savedWindowState = WindowState.WindowMinimized
            ∨ (w0.run q steps).savedWindowState = WindowState.WindowMaximized))
      ∧ (∀ states, w0.lastEntry q steps = some states →
          (w0.run q steps).savedWindowState = windowStatesToWindowState states
            ∧ states &&& 4 = 0
            ∧ ((w0.run q steps).savedWindowState = WindowState.WindowNoState
              ∨ (w0.run q steps).savedWindowState = WindowState.WindowMinimized
              ∨ (w0.run q steps).savedWindowState = WindowState.WindowMaximized))
      ∧ (w0.lastEntry q steps = none →
          (w0.run q steps).savedWindowState = w0.savedWindowState)
      ∧ ((w0.run q steps).isFullScreen = true →
          ((w0.run q steps).toggleFullScreen q).calls
              = WidgetCall.setWindowState (w0.run q steps).savedWindowState
                :: (w0.run q steps).calls
            ∧ (w0.run q steps).savedWindowState.toFlags &&& 4 = 0
            ∧ ((w0.run q steps).toggleFullScreen q).savedWindowState
              = (w0.run q steps).savedWindowState) := by
  obtain ⟨i1, i2, i3, i4⟩ := foldl_stepEntry_invariant q w0 steps h0
  rw [foldl_stepEntry_fst] at i1 i2 i3
  refine ⟨i1, i2, ?_, ?_, ?_⟩
  · intro states hs
    have hs2 : (steps.foldl (FramelessMainWindow.stepEntry q) (w0, none)).2 = some states := hs
    rw [hs2] at i3
    have hbit := i4 states hs2
    refine ⟨i3, hbit, ?_⟩
    rw [i3]
    exact windowStatesToWindowState_of_not_fullScreen states hbit
  · intro hn
    have hn2 : (steps.foldl (FramelessMainWindow.stepEntry q) (w0, none)).2 = none := hn
    rw [hn2] at i3
    exact i3
  · intro hfs
    refine ⟨?_, ?_, ?_⟩
    · simp [FramelessMainWindow.toggleFullScreen, hfs]
    · exact toFlags_and_four _ i1
    · simp [FramelessMainWindow.toggleFullScreen, hfs]

/-- The amended C14 for a maximized window after one call of `toggleFullScreen`: the saved
state is `WindowMaximized`, the window is full screen, and the next call passes
`WindowMaximized` to `setWindowState`. -/
theorem toggleFullScreen_saved_witness :
    (maximizedWindow.run qtWidgetOps [Step.toggle]).savedWindowState
        = WindowState.WindowMaximized
      ∧ (((maximizedWindow.run qtWidgetOps [Step.toggle]).toggleFullScreen qtWidgetOps).calls
          = [WidgetCall.setWindowState WindowState.WindowMaximized,
              WidgetCall.showFullScreen]) :=
  have h := toggleFullScreen_saved qtWidgetOps maximizedWindow [Step.toggle] (by decide)
  ⟨(h.2.2.1 10 rfl).1, (h.2.2.2.2 (by decide)).1⟩

/-! ## Theorems: the event filter -/

/-- C17, as stated, fails in a debug build for a null object: `eventFilter` does not return
false, it aborts on the assertion `Q_ASSERT(object)`. -/
theorem eventFilter_debug_aborts :
    WidgetsSharedHelper.eventFilter linuxDebug
        { m_targetWidget := some 1, m_micaEnabled := true } none (some QEventType.Paint)
      = none := by
  decide

/-- C17 (amended): `WidgetsSharedHelper::eventFilter` never consumes an event.  For every
non-null object and non-null event (events for objects other than the target widget, and
`Paint`, `WindowStateChange`, `Move` and `Resize` events for the target widget, included) it
returns false, in every build; for a null object or a null event it returns false in a
release build and aborts on the assertion in a debug build.  Whenever it returns, it returns
false. -/
theorem eventFilter_false (b : Build) (self : WidgetsSharedHelper) (object : Option QObject)
    (event : Option QEventType) :
    (∀ obj ev, object = some obj → event = some ev →
        ∃ calls, self.eventFilter b object event = some (false, calls))
      ∧ (b.QT_NO_DEBUG = true → ∃ calls, self.eventFilter b object event = some (false, calls))
      ∧ (b.QT_NO_DEBUG = true → (object = none ∨ event = none) →
          self.eventFilter b object event = some (false, []))
      ∧ (b.QT_NO_DEBUG = false → (object = none ∨ event = none) →
          self.eventFilter b object event = none)
      ∧ (∀ r calls, self.eventFilter b object event = some (r, calls) → r = false) := by
  have hsome : ∀ obj ev, ∃ calls,
      self.eventFilter b (some obj) (some ev) = some (false, calls) := by
    intro obj ev
    simp only [WidgetsSharedHelper.eventFilter, Q_ASSERT, Option.isSome_some, Bool.or_true,
      if_true, Option.some_bind, QObject.eventFilter]
    split_ifs <;> exact ⟨_, rfl⟩
  have hnull : b.QT_NO_DEBUG = true → (object = none ∨ event = none) →
      self.eventFilter b object event = some (false, []) := by
    intro hrel hn
    rcases hn with h | h
    · subst h
      cases event <;> simp [WidgetsSharedHelper.eventFilter, Q_ASSERT, hrel]
    · subst h
      cases object <;> simp [WidgetsSharedHelper.eventFilter, Q_ASSERT, hrel]
  have habort : b.QT_NO_DEBUG = false → (object = none ∨ event = none) →
      self.eventFilter b object event = none := by
    intro hdbg hn
    rcases hn with h | h
    · subst h
      simp [WidgetsSharedHelper.eventFilter, Q_ASSERT, hdbg]
    · subst h
      cases object <;> simp [WidgetsSharedHelper.eventFilter, Q_ASSERT, hdbg]
  have hall : b.QT_NO_DEBUG = true →
      ∃ calls, self.eventFilter b object event = some (false, calls) := by
    intro hrel
    cases hobj : object with
    | none => exact ⟨[], hobj ▸ hnull hrel (Or.inl hobj)⟩
    | some obj =>
      cases hev : event with
      | none => exact ⟨[], hobj ▸ hev ▸ hnull hrel (Or.inr hev)⟩
      | some ev => exact hsome obj ev
  refine ⟨?_, hall, hnull, habort, ?_⟩
  · intro obj ev ho he
    subst ho he
    exact hsome obj ev
  · intro r calls hrun
    cases hobj : object with
    | none =>
      cases hdbg : b.QT_NO_DEBUG with
      | true =>
        rw [hnull hdbg (Or.inl hobj)] at hrun
        cases hrun
        rfl
      | false =>
        rw [habort hdbg (Or.inl hobj)] at hrun
        cases hrun
    | some obj =>
      cases hev : event with
      | none =>
        cases hdbg : b.QT_NO_DEBUG with
        | true =>
          rw [hnull hdbg (Or.inr hev)] at hrun
          cases hrun
          rfl
        | false =>
          rw [habort hdbg (Or.inr hev)] at hrun
          cases hrun
      | some ev =>
        obtain ⟨calls2, h2⟩ := hsome obj ev
        rw [hobj, hev, h2] at hrun
        cases hrun
        rfl

/-- The amended C17 on a debug build: a `Paint` event for the target widget runs the paint
handler and is not consumed; on a release build a null event is not consumed either. -/
theorem eventFilter_false_witness :
    (∃ calls, WidgetsSharedHelper.eventFilter linuxDebug
        { m_targetWidget := some 1, m_micaEnabled := true }
        (some { id := 1, isWidgetType := true }) (some QEventType.Paint)
        = some (false, calls))
      ∧ WidgetsSharedHelper.eventFilter winRelease
          { m_targetWidget := some 1, m_micaEnabled := true }
          (some { id := 1, isWidgetType := true }) none = some (false, []) :=
  ⟨(eventFilter_false linuxDebug { m_targetWidget := some 1, m_micaEnabled := true }
      (some { id := 1, isWidgetType := true }) (some QEventType.Paint)).1 _ _ rfl rfl,
    (eventFilter_false winRelease { m_targetWidget := some 1, m_micaEnabled := true }
      (some { id := 1, isWidgetType := true }) none).2.2.1 rfl (Or.inr rfl)⟩

/-! ## Theorems: double-precision arithmetic -/

/-- Rounding to the nearest integer moves a number by at most one half. -/
theorem roundHalfEven_error (q : ℚ) : |((roundHalfEven q : Int) : ℚ) - q| ≤ 1 / 2 := by
  have h1 := Int.floor_le q
  have h2 := Int.lt_floor_add_one q
  unfold roundHalfEven
  rw [abs_le]
  split_ifs with a b c
  · constructor <;> linarith
  · push_cast; constructor <;> linarith
  · have : q - ⌊q⌋ = 1 / 2 := le_antisymm (not_lt.mp b) (not_lt.mp a)
    constructor <;> linarith
  · have : q - ⌊q⌋ = 1 / 2 := le_antisymm (not_lt.mp b) (not_lt.mp a)
    push_cast; constructor <;> linarith

/-- An integer strictly closer than one half to `q` is what `q` rounds to. -/
theorem roundHalfEven_eq_of_abs_lt (q : ℚ) (n : Int) (h : |q - (n : ℚ)| < 1 / 2) :
    roundHalfEven q = n := by
  have h1 := roundHalfEven_error q
  rw [abs_le] at h1
  rw [abs_lt] at h
  have e1 : ((roundHalfEven q - n : Int) : ℚ) < 1 := by push_cast; linarith
  have e2 : (-1 : ℚ) < ((roundHalfEven q - n : Int) : ℚ) := by push_cast; linarith
  have e3 : roundHalfEven q - n < 1 := by exact_mod_cast e1
  have e4 : -1 < roundHalfEven q - n := by exact_mod_cast e2
  omega

/-- Rounding to a double moves a number by at most half a unit in the last place. -/
theorem roundToDouble_error (q : ℚ) :
    |roundToDouble q - q| ≤ 2 ^ ulpExponent q / 2 := by
  have hpos : (0 : ℚ) < 2 ^ ulpExponent q := zpow_pos (by norm_num) _
  have h := roundHalfEven_error (q / 2 ^ ulpExponent q)
  have e : roundToDouble q - q
      = (((roundHalfEven (q / 2 ^ ulpExponent q) : Int) : ℚ) - q / 2 ^ ulpExponent q)
        * 2 ^ ulpExponent q := by
    unfold roundToDouble
    field_simp
  rw [e, abs_mul, abs_of_pos hpos]
  calc _ ≤ 1 / 2 * 2 ^ ulpExponent q := mul_le_mul_of_nonneg_right h hpos.le
    _ = 2 ^ ulpExponent q / 2 := by ring

/-- Below `2 ^ (k + 1)` in magnitude the unit in the last place is at most `2 ^ (k - 52)`. -/
theorem ulpExponent_le (q : ℚ) (k : Int) (hk : 0 ≤ k) (h : |q| < 2 ^ (k + 1)) :
    ulpExponent q ≤ k - 52 := by
  unfold ulpExponent
  have hlog : Int.log 2 |q| ≤ k := by
    rcases eq_or_lt_of_le (abs_nonneg q) with h0 | h0
    · rw [← h0, Int.log_zero_right]
      exact hk
    · have := (Int.lt_zpow_iff_log_lt (b := 2) (by norm_num) h0).mp (by exact_mod_cast h)
      omega
  omega

/-- In the binade `[2 ^ k, 2 ^ (k + 1))` the unit in the last place is `2 ^ (k - 52)`. -/
theorem ulpExponent_eq (q : ℚ) (k : Int) (hk : -1022 ≤ k) (h1 : 2 ^ k ≤ |q|)
    (h2 : |q| < 2 ^ (k + 1)) : ulpExponent q = k - 52 := by
  have hpos : 0 < |q| := lt_of_lt_of_le (zpow_pos (by norm_num) _) h1
  have a := (Int.lt_zpow_iff_log_lt (b := 2) (by norm_num) hpos).mp (by exact_mod_cast h2)
  have b := (Int.zpow_le_iff_le_log (b := 2) (by norm_num) hpos).mp (by exact_mod_cast h1)
  unfold ulpExponent
  omega

/-- The double nearest to a number of the binade `[2 ^ k, 2 ^ (k + 1))`, given the multiple
of the unit in the last place that is nearest to it. -/
theorem roundToDouble_eq (q : ℚ) (k n : Int) (hk : -1022 ≤ k) (h1 : 2 ^ k ≤ |q|)
    (h2 : |q| < 2 ^ (k + 1)) (hn : |q / 2 ^ (k - 52) - (n : ℚ)| < 1 / 2) :
    roundToDouble q = (n : ℚ) * 2 ^ (k - 52) := by
  unfold roundToDouble
  rw [ulpExponent_eq q k hk h1 h2, roundHalfEven_eq_of_abs_lt _ n hn]


/-- Below `2 ^ 32` in magnitude the rounding error is at most `2 ^ (-22)`. -/
theorem roundToDouble_error_small (q : ℚ) (h : |q| < 4294967296) :
    |roundToDouble q - q| ≤ 1 / 4194304 := by
  have h1 := roundToDouble_error q
  have h2 : ulpExponent q ≤ 31 - 52 := ulpExponent_le q 31 (by norm_num) (by norm_num; exact h)
  have h3 : (2 : ℚ) ^ ulpExponent q ≤ 2 ^ ((31 : ℤ) - 52) :=
    zpow_le_zpow_right₀ (by norm_num) h2
  have h4 : (2 : ℚ) ^ ((31 : ℤ) - 52) = 1 / 2097152 := by norm_num
  rw [h4] at h3
  linarith

/-- Within the range of `int`, the conversion of a non-negative double is its floor. -/
theorem toInt32_of_nonneg (d : ℚ) (h0 : 0 ≤ d) (h1 : d < 2147483648) : toInt32 d = ⌊d⌋ := by
  have a : (0 : ℤ) ≤ ⌊d⌋ := Int.floor_nonneg.mpr h0
  have b : ⌊d⌋ < 2147483648 := by
    have : ((⌊d⌋ : Int) : ℚ) < ((2147483648 : Int) : ℚ) :=
      lt_of_le_of_lt (Int.floor_le d) (by push_cast; exact h1)
    exact_mod_cast this
  simp only [toInt32, h0, if_true]
  rw [if_pos ⟨by omega, by omega⟩]

/-- Within the range of `int`, the conversion of a negative double is its ceiling. -/
theorem toInt32_of_neg (d : ℚ) (h0 : d < 0) (h1 : -2147483649 < d) : toInt32 d = ⌈d⌉ := by
  have a : ⌈d⌉ ≤ 0 := Int.ceil_le.mpr (by push_cast; exact h0.le)
  have b : -2147483649 < ⌈d⌉ := by
    have : ((-2147483649 : Int) : ℚ) < ((⌈d⌉ : Int) : ℚ) :=
      lt_of_lt_of_le (by push_cast; exact h1) (Int.le_ceil d)
    exact_mod_cast this
  simp only [toInt32, not_le.mpr h0, if_false]
  rw [if_pos ⟨by omega, by omega⟩]

/-- An integer within the range of `int` is its own 32-bit value. -/
theorem wrapInt32_of_range (n : Int) (h1 : -2147483648 ≤ n) (h2 : n ≤ 2147483647) :
    wrapInt32 n = n := by
  unfold wrapInt32
  rw [Int.emod_eq_of_lt (by omega) (by omega)]
  omega

/-- Rounding a number to a double and the double to an integer with `qRound` gives an
integer within `1/2 + 2 ^ (-20)` of the number, as long as it is within the `int` range. -/
theorem qRoundDouble_near (b : Build) (x : ℚ) (hx : |x| ≤ 2147483647) :
    |((qRoundDouble b (roundToDouble x) : Int) : ℚ) - x| ≤ 1 / 2 + 1 / 1048576 := by
  rw [abs_le] at hx
  obtain ⟨hx1, hx2⟩ := hx
  have hd := roundToDouble_error_small x (by rw [abs_lt]; constructor <;> linarith)
  rw [abs_le] at hd
  obtain ⟨hd1, hd2⟩ := hd
  generalize roundToDouble x = d at hd1 hd2
  have hpos : 0 ≤ d →
      |((toInt32 (roundToDouble (d + 1 / 2)) : Int) : ℚ) - x| ≤ 1 / 2 + 1 / 1048576 := by
    intro h0
    have hu := roundToDouble_error_small (d + 1 / 2)
      (by rw [abs_lt]; constructor <;> linarith)
    rw [abs_le] at hu
    obtain ⟨hu1, hu2⟩ := hu
    generalize roundToDouble (d + 1 / 2) = u at hu1 hu2
    rw [toInt32_of_nonneg u (by linarith) (by linarith)]
    have f1 := Int.floor_le u
    have f2 := Int.lt_floor_add_one u
    rw [abs_le]
    constructor <;> linarith
  unfold qRoundDouble
  by_cases h0 : d ≥ 0
  · simp only [if_pos h0, ite_self]
    exact hpos h0
  · have hneg : d < 0 := not_le.mp h0
    by_cases hv : b.QT_VERSION ≥ QT_VERSION_CHECK 6 0 0
    · simp only [if_pos hv, if_neg h0]
      have hu := roundToDouble_error_small (d - 1 / 2)
        (by rw [abs_lt]; constructor <;> linarith)
      rw [abs_le] at hu
      obtain ⟨hu1, hu2⟩ := hu
      generalize roundToDouble (d - 1 / 2) = u at hu1 hu2
      rw [toInt32_of_neg u (by linarith) (by linarith)]
      have f1 := Int.le_ceil u
      have f2 := Int.ceil_lt_add_one u
      rw [abs_le]
      constructor <;> linarith
    · simp only [if_neg hv, if_neg h0]
      have ha := roundToDouble_error_small (d - 1)
        (by rw [abs_lt]; constructor <;> linarith)
      rw [abs_le] at ha
      obtain ⟨ha1, ha2⟩ := ha
      generalize roundToDouble (d - 1) = a at ha1 ha2
      rw [toInt32_of_neg a (by linarith) (by linarith)]
      have c1 := Int.le_ceil a
      have c2 := Int.ceil_lt_add_one a
      have cm1 : ⌈a⌉ ≤ 0 := Int.ceil_le.mpr (by push_cast; linarith)
      have cm2 : -2147483649 < ⌈a⌉ := by
        have : ((-2147483649 : Int) : ℚ) < ((⌈a⌉ : Int) : ℚ) := by push_cast; linarith
        exact_mod_cast this
      generalize ⌈a⌉ = m at c1 c2 cm1 cm2
      have ht := roundToDouble_error_small (d - (m : ℚ))
        (by rw [abs_lt]; constructor <;> linarith)
      rw [abs_le] at ht
      obtain ⟨ht1, ht2⟩ := ht
      generalize roundToDouble (d - (m : ℚ)) = t at ht1 ht2
      have hu := roundToDouble_error_small (t + 1 / 2)
        (by rw [abs_lt]; constructor <;> linarith)
      rw [abs_le] at hu
      obtain ⟨hu1, hu2⟩ := hu
      generalize roundToDouble (t + 1 / 2) = u at hu1 hu2
      rw [toInt32_of_nonneg u (by linarith) (by linarith)]
      have f1 := Int.floor_le u
      have f2 := Int.lt_floor_add_one u
      have fn1 : (0 : ℤ) ≤ ⌊u⌋ := Int.floor_nonneg.mpr (by linarith)
      have fn2 : ⌊u⌋ < 2 := by
        have : ((⌊u⌋ : Int) : ℚ) < ((2 : Int) : ℚ) := by push_cast; linarith
        exact_mod_cast this
      generalize ⌊u⌋ = n at f1 f2 fn1 fn2
      rw [wrapInt32_of_range _ (by omega) (by omega)]
      push_cast
      rw [abs_le]
      constructor <;> linarith

/-- An integer rounds to itself. -/
theorem roundHalfEven_intCast (n : Int) : roundHalfEven (n : ℚ) = n := by
  unfold roundHalfEven
  simp
/-- Half of an integer below `2 ^ 33` in magnitude is a double. -/
theorem roundToDouble_half_int (m : Int) (h : |(m : ℚ) / 2| < 8589934592) :
    roundToDouble ((m : ℚ) / 2) = (m : ℚ) / 2 := by
  have he : ulpExponent ((m : ℚ) / 2) ≤ 32 - 52 :=
    ulpExponent_le _ 32 (by norm_num) (by norm_num; exact h)
  unfold roundToDouble
  generalize ulpExponent ((m : ℚ) / 2) = e at he
  obtain ⟨j, hj⟩ : ∃ j : ℕ, (j : ℤ) = -e - 1 := ⟨(-e - 1).toNat, Int.toNat_of_nonneg (by omega)⟩
  have hee : e = -((j : ℤ) + 1) := by omega
  subst hee
  have h2 : (2 : ℚ) ^ (-((j : ℤ) + 1)) = 1 / (2 * 2 ^ j) := by
    rw [zpow_neg, zpow_add_one₀ (by norm_num), zpow_natCast]
    field_simp
    ring
  have hz : (m : ℚ) / 2 / 2 ^ (-((j : ℤ) + 1)) = ((m * 2 ^ j : Int) : ℚ) := by
    rw [h2]
    push_cast
    field_simp
    ring
  rw [hz, roundHalfEven_intCast, h2]
  push_cast
  field_simp
  ring
/-- On half of an integer within the range of `int`, where every addition `qRound` performs
is exact in double arithmetic, the exact reading `qRound` is what the toolkit function
computes on doubles. -/
theorem qRoundDouble_half_int (b : Build) (n : Int) (hn : |(n : ℚ) / 2| ≤ 2147483647) :
    qRoundDouble b ((n : ℚ) / 2) = qRound b ((n : ℚ) / 2) := by
  rw [abs_le] at hn
  obtain ⟨hn1, hn2⟩ := hn
  have ex : ∀ m : Int, -8589934592 < (m : ℚ) / 2 → (m : ℚ) / 2 < 8589934592 →
      roundToDouble ((m : ℚ) / 2) = (m : ℚ) / 2 := by
    intro m h1 h2
    exact roundToDouble_half_int m (by rw [abs_lt]; exact ⟨h1, h2⟩)
  have epos : (n : ℚ) / 2 + 1 / 2 = ((n + 1 : Int) : ℚ) / 2 := by push_cast; ring
  have eneg : (n : ℚ) / 2 - 1 / 2 = ((n - 1 : Int) : ℚ) / 2 := by push_cast; ring
  have eone : (n : ℚ) / 2 - 1 = ((n - 2 : Int) : ℚ) / 2 := by push_cast; ring
  unfold qRoundDouble qRound
  by_cases h0 : (n : ℚ) / 2 ≥ 0
  · simp only [if_pos h0, ite_self]
    rw [epos, ex _ (by push_cast; linarith) (by push_cast; linarith),
      toInt32_of_nonneg _ (by push_cast; linarith) (by push_cast; linarith),
      qrealToInt_of_nonneg (by push_cast; linarith)]
  · have hneg : (n : ℚ) / 2 < 0 := not_le.mp h0
    by_cases hv : b.QT_VERSION ≥ QT_VERSION_CHECK 6 0 0
    · simp only [if_pos hv, if_neg h0]
      rw [eneg, ex _ (by push_cast; linarith) (by push_cast; linarith),
        toInt32_of_neg _ (by push_cast; linarith) (by push_cast; linarith),
        qrealToInt_of_neg (by push_cast; linarith)]
    · simp only [if_neg hv, if_neg h0]
      have ha : roundToDouble ((n : ℚ) / 2 - 1) = ((n - 2 : Int) : ℚ) / 2 := by
        rw [eone]
        exact ex _ (by push_cast; linarith) (by push_cast; linarith)
      have hq1 : qrealToInt ((n : ℚ) / 2 - 1) = ⌈((n - 2 : Int) : ℚ) / 2⌉ := by
        rw [eone]
        exact qrealToInt_of_neg (by push_cast; linarith)
      have ht1 : toInt32 (((n - 2 : Int) : ℚ) / 2) = ⌈((n - 2 : Int) : ℚ) / 2⌉ :=
        toInt32_of_neg _ (by push_cast; linarith) (by push_cast; linarith)
      rw [ha, ht1, hq1]
      have c1 := Int.le_ceil (((n - 2 : Int) : ℚ) / 2)
      have c2 := Int.ceil_lt_add_one (((n - 2 : Int) : ℚ) / 2)
      have cm1 : ⌈((n - 2 : Int) : ℚ) / 2⌉ ≤ 0 := Int.ceil_le.mpr (by push_cast; linarith)
      have cm2 : -2147483649 < ⌈((n - 2 : Int) : ℚ) / 2⌉ := by
        have : ((-2147483649 : Int) : ℚ) < ((⌈((n - 2 : Int) : ℚ) / 2⌉ : Int) : ℚ) := by
          push_cast at c1 ⊢; linarith
        exact_mod_cast this
      generalize ⌈((n - 2 : Int) : ℚ) / 2⌉ = m at c1 c2 cm1 cm2
      push_cast at c1 c2
      have hm1 : ((m : Int) : ℚ) ≤ 0 := by exact_mod_cast cm1
      have e1 : (n : ℚ) / 2 - (m : ℚ) = ((n - 2 * m : Int) : ℚ) / 2 := by push_cast; ring
      have e2 : ((n - 2 * m : Int) : ℚ) / 2 + 1 / 2 = ((n - 2 * m + 1 : Int) : ℚ) / 2 := by
        push_cast; ring
      have e3 : (n : ℚ) / 2 - (m : ℚ) + 1 / 2 = ((n - 2 * m + 1 : Int) : ℚ) / 2 := by
        push_cast; ring
      have hb : roundToDouble ((n : ℚ) / 2 - (m : ℚ)) = ((n - 2 * m : Int) : ℚ) / 2 := by
        rw [e1]
        exact ex _ (by push_cast; linarith) (by push_cast; linarith)
      have hc : roundToDouble (((n - 2 * m : Int) : ℚ) / 2 + 1 / 2)
          = ((n - 2 * m + 1 : Int) : ℚ) / 2 := by
        rw [e2]
        exact ex _ (by push_cast; linarith) (by push_cast; linarith)
      have f1 := Int.floor_le (((n - 2 * m + 1 : Int) : ℚ) / 2)
      have f2 := Int.lt_floor_add_one (((n - 2 * m + 1 : Int) : ℚ) / 2)
      have fn1 : (0 : ℤ) ≤ ⌊((n - 2 * m + 1 : Int) : ℚ) / 2⌋ :=
        Int.floor_nonneg.mpr (by push_cast; linarith)
      have fn2 : ⌊((n - 2 * m + 1 : Int) : ℚ) / 2⌋ < 2 := by
        have : ((⌊((n - 2 * m + 1 : Int) : ℚ) / 2⌋ : Int) : ℚ) < ((2 : Int) : ℚ) := by
          push_cast at f1 ⊢; linarith
        exact_mod_cast this
      rw [hb, hc, e3,
        toInt32_of_nonneg _ (by push_cast; linarith) (by push_cast; linarith),
        qrealToInt_of_nonneg (by push_cast; linarith),
        wrapInt32_of_range _ (by omega) (by omega)]

/-- Two integers less than one apart are equal. -/
theorem int_eq_of_abs_sub_lt_one (a c : Int) (h : |(a : ℚ) - (c : ℚ)| < 1) : a = c := by
  rw [abs_lt] at h
  have e1 : ((a - c : Int) : ℚ) < 1 := by push_cast; linarith
  have e2 : (-1 : ℚ) < ((a - c : Int) : ℚ) := by push_cast; linarith
  have e3 : a - c < 1 := by exact_mod_cast e1
  have e4 : -1 < a - c := by exact_mod_cast e2
  omega

/-- On a non-negative double both definitions of `qRound` compute `int(d + 0.5)`. -/
theorem qRoundDouble_of_nonneg (b : Build) (d : ℚ) (h : 0 ≤ d) :
    qRoundDouble b d = toInt32 (roundToDouble (d + 1 / 2)) := by
  unfold qRoundDouble
  have h2 : d ≥ 0 := h
  simp only [if_pos h2, ite_self]

/-- The conversion of an integral double within the range of `int`. -/
theorem toInt32_intCast (n : Int) (h1 : -2147483648 ≤ n) (h2 : n ≤ 2147483647) :
    toInt32 (n : ℚ) = n := by
  unfold toInt32
  by_cases h0 : (0 : ℚ) ≤ (n : ℚ)
  · simp only [if_pos h0, Int.floor_intCast]
    rw [if_pos ⟨h1, h2⟩]
  · simp only [if_neg h0, Int.ceil_intCast]
    rw [if_pos ⟨h1, h2⟩]

/-- Rounding an integer of the range of `int` to a double and back with `qRound` returns
it. -/
theorem qRoundDouble_roundToDouble_int (b : Build) (q : ℚ) (n : Int) (hq : q = (n : ℚ))
    (hn : |(n : ℚ)| ≤ 2147483647) : qRoundDouble b (roundToDouble q) = n := by
  apply int_eq_of_abs_sub_lt_one
  have h := qRoundDouble_near b q (by rw [hq]; exact hn)
  rw [hq] at h ⊢
  have e : (1 : ℚ) / 2 + 1 / 1048576 < 1 := by norm_num
  exact lt_of_le_of_lt h e

/-- The `int` overload of `toNativePixels` in the build without the private headers. -/
theorem toNativePixels_eq (b : Build) (hd : QHighDpi) (win : QWindow) (v : Int)
    (hnp : b.FRAMELESSHELPER_CORE_NO_PRIVATE = true) :
    toNativePixels b hd (some win) v
      = some (qRoundDouble b (roundToDouble ((v : ℚ) * win.devicePixelRatio))) := by
  simp [toNativePixels, Q_ASSERT, hnp]

/-- The `int` overload of `fromNativePixels` in the build without the private headers. -/
theorem fromNativePixels_eq (b : Build) (hd : QHighDpi) (win : QWindow) (v : Int)
    (hnp : b.FRAMELESSHELPER_CORE_NO_PRIVATE = true) :
    fromNativePixels b hd (some win) v
      = some (qRoundDouble b (roundToDouble ((v : ℚ) / win.devicePixelRatio))) := by
  simp [fromNativePixels, Q_ASSERT, hnp]

/-! ## Theorems: pixel conversion -/

/-- C7, as stated, fails in double arithmetic: at the device pixel ratio `double17` (the
double nearest to 1.7) the product `5 * s` is slightly below 8.5, so the nearest integer is
8; the double product rounds to 8.5 and `toNativePixels(window, 5)` returns 9. -/
theorem toNativePixels_not_nearest :
    isDouble double17
      ∧ toNativePixels winRelease identityHighDpi (some (window800x600 double17)) 5 = some 9
      ∧ |((9 : Int) : ℚ) - ((5 : Int) : ℚ) * double17| > 1 / 2
      ∧ |((8 : Int) : ℚ) - ((5 : Int) : ℚ) * double17| < 1 / 2 := by
  refine ⟨?_, ?_, ?_, ?_⟩
  · unfold isDouble
    rw [roundToDouble_eq double17 0 7656119366529843 (by norm_num)
      (by norm_num [double17, abs_of_pos]) (by norm_num [double17, abs_of_pos])
      (by norm_num [double17])]
    norm_num [double17]
  · rw [toNativePixels_eq _ _ _ _ rfl]
    have h1 : roundToDouble (((5 : Int) : ℚ) * (window800x600 double17).devicePixelRatio)
        = 17 / 2 := by
      rw [roundToDouble_eq _ 3 4785074604081152 (by norm_num)
        (by norm_num [window800x600, double17, abs_of_pos])
        (by norm_num [window800x600, double17, abs_of_pos])
        (by norm_num [window800x600, double17, abs_lt])]
      norm_num
    have h2 : roundToDouble ((17 : ℚ) / 2 + 1 / 2) = ((9 : Int) : ℚ) := by
      rw [roundToDouble_eq _ 3 5066549580791808 (by norm_num)
        (by norm_num [abs_of_pos]) (by norm_num [abs_of_pos]) (by norm_num)]
      norm_num
    rw [h1, qRoundDouble_of_nonneg _ _ (by norm_num), h2,
      toInt32_intCast 9 (by norm_num) (by norm_num)]
  · norm_num [double17, abs_of_pos]
  · norm_num [double17, abs_lt]

/-- Outside the range of `int` the result is not the scaled value: `INT_MAX` logical pixels
at device pixel ratio 2 give `INT_MIN`. -/
theorem toNativePixels_out_of_range :
    toNativePixels winRelease identityHighDpi (some (window800x600 2)) 2147483647
      = some (-2147483648) := by
  rw [toNativePixels_eq _ _ _ _ rfl]
  have h1 : roundToDouble (((2147483647 : Int) : ℚ) * (window800x600 2).devicePixelRatio)
      = 4294967294 := by
    rw [roundToDouble_eq _ 31 9007199250546688 (by norm_num)
      (by norm_num [window800x600, abs_of_pos]) (by norm_num [window800x600, abs_of_pos])
      (by norm_num [window800x600])]
    norm_num
  have h2 : roundToDouble ((4294967294 : ℚ) + 1 / 2) = 8589934589 / 2 := by
    rw [roundToDouble_eq _ 31 9007199251595264 (by norm_num)
      (by norm_num [abs_of_pos]) (by norm_num [abs_of_pos]) (by norm_num)]
    norm_num
  have h3 : ⌊(8589934589 : ℚ) / 2⌋ = 4294967294 := by
    rw [Int.floor_eq_iff]
    norm_num
  rw [h1, qRoundDouble_of_nonneg _ _ (by norm_num), h2]
  have h0 : (0 : ℚ) ≤ 8589934589 / 2 := by norm_num
  simp only [toInt32, if_pos h0, h3]
  norm_num

/-- C7 (amended): in a build without the private toolkit headers, for every window with
device pixel ratio `s > 0` and every integer `v`: if `|v * s|` is at most `INT_MAX`,
`toNativePixels(window, v)` is an integer within `1/2 + 2 ^ (-20)` of `v * s`, hence the
integer nearest to `v * s` unless `v * s` lies within `2 ^ (-20)` of a half-integer (where
the rounding of the double product may select the other neighbour); likewise
`fromNativePixels(window, v)` and `v / s` if `|v / s|` is at most `INT_MAX`.  For every
integral `s >= 1` with `|v * s|` at most `INT_MAX`, `toNativePixels(window, v) = v * s`
exactly, so 8 logical pixels are 16 physical pixels at `s = 2`. -/
theorem nativePixels_near (b : Build) (hd : QHighDpi) (win : QWindow) (v : Int)
    (hnp : b.FRAMELESSHELPER_CORE_NO_PRIVATE = true) (hs : 0 < win.devicePixelRatio) :
    (|(v : ℚ) * win.devicePixelRatio| ≤ 2147483647 →
        ∃ r : Int, toNativePixels b hd (some win) v = some r
          ∧ |(r : ℚ) - (v : ℚ) * win.devicePixelRatio| ≤ 1 / 2 + 1 / 1048576
          ∧ ∀ r2 : Int,
              |(r2 : ℚ) - (v : ℚ) * win.devicePixelRatio| < 1 / 2 - 1 / 1048576 → r2 = r)
      ∧ (|(v : ℚ) / win.devicePixelRatio| ≤ 2147483647 →
        ∃ r : Int, fromNativePixels b hd (some win) v = some r
          ∧ |(r : ℚ) - (v : ℚ) / win.devicePixelRatio| ≤ 1 / 2 + 1 / 1048576
          ∧ |(r : ℚ) * win.devicePixelRatio - (v : ℚ)|
              ≤ (1 / 2 + 1 / 1048576) * win.devicePixelRatio
          ∧ ∀ r2 : Int,
              |(r2 : ℚ) - (v : ℚ) / win.devicePixelRatio| < 1 / 2 - 1 / 1048576 → r2 = r)
      ∧ (∀ n : Int, 1 ≤ n → win.devicePixelRatio = (n : ℚ) → |(v : ℚ) * (n : ℚ)| ≤ 2147483647 →
          toNativePixels b hd (some win) v = some (v * n))
      ∧ (win.devicePixelRatio = 2 → toNativePixels b hd (some win) 8 = some 16) := by
  have huniq : ∀ (x : ℚ) (r r2 : Int), |(r : ℚ) - x| ≤ 1 / 2 + 1 / 1048576 →
      |(r2 : ℚ) - x| < 1 / 2 - 1 / 1048576 → r2 = r := by
    intro x r r2 h1 h2
    apply int_eq_of_abs_sub_lt_one
    rw [abs_le] at h1
    rw [abs_lt] at h2 ⊢
    constructor <;> linarith
  refine ⟨?_, ?_, ?_, ?_⟩
  · intro hfit
    have hn := qRoundDouble_near b _ hfit
    exact ⟨_, toNativePixels_eq b hd win v hnp, hn, fun r2 h2 => huniq _ _ r2 hn h2⟩
  · intro hfit
    have hn := qRoundDouble_near b _ hfit
    refine ⟨_, fromNativePixels_eq b hd win v hnp, hn, ?_, fun r2 h2 => huniq _ _ r2 hn h2⟩
    have e : ((qRoundDouble b (roundToDouble ((v : ℚ) / win.devicePixelRatio)) : Int) : ℚ)
          * win.devicePixelRatio - (v : ℚ)
        = (((qRoundDouble b (roundToDouble ((v : ℚ) / win.devicePixelRatio)) : Int) : ℚ)
            - (v : ℚ) / win.devicePixelRatio) * win.devicePixelRatio := by
      field_simp
    rw [e, abs_mul, abs_of_pos hs]
    exact mul_le_mul_of_nonneg_right hn hs.le
  · intro n _ hsn hfit
    rw [toNativePixels_eq b hd win v hnp, hsn,
      qRoundDouble_roundToDouble_int b _ (v * n) (by push_cast; rfl)
        (by push_cast; exact hfit)]
  · intro h2
    rw [toNativePixels_eq b hd win 8 hnp, h2,
      qRoundDouble_roundToDouble_int b _ 16 (by norm_num) (by norm_num)]

/-- The amended C7 for 10 logical pixels at device pixel ratio 5/4, and for 8 logical pixels
at ratio 2, on a build without the private headers. -/
theorem nativePixels_near_witness :
    (∃ r : Int, toNativePixels winRelease identityHighDpi (some (window800x600 (5 / 4))) 10
          = some r
        ∧ |(r : ℚ) - ((10 : Int) : ℚ) * (window800x600 (5 / 4)).devicePixelRatio|
            ≤ 1 / 2 + 1 / 1048576
        ∧ ∀ r2 : Int,
            |(r2 : ℚ) - ((10 : Int) : ℚ) * (window800x600 (5 / 4)).devicePixelRatio|
              < 1 / 2 - 1 / 1048576 → r2 = r)
      ∧ toNativePixels winRelease identityHighDpi (some (window800x600 2)) 8 = some 16 :=
  ⟨(nativePixels_near winRelease identityHighDpi (window800x600 (5 / 4)) 10 rfl
      (by norm_num [window800x600])).1 (by norm_num [window800x600, abs_of_pos]),
    (nativePixels_near winRelease identityHighDpi (window800x600 2) 8 rfl
      (by norm_num [window800x600])).2.2.2 rfl⟩

/-! ## Theorems: pixel conversion round trip -/

/-- C16, as stated, fails in double arithmetic: at the device pixel ratio `1 + 2 ^ (-31)`
(a double, at least 1) and `v = 2 ^ 30`, the scaled value `2 ^ 30 + 1/2` fits in `int`;
`toNativePixels` returns `2 ^ 30 + 1`, the quotient `(2 ^ 30 + 1) / s` rounds to the double
`2 ^ 30 + 1/2`, and `fromNativePixels` returns `2 ^ 30 + 1`, not `v`. -/
theorem nativePixels_roundtrip_fails :
    isDouble doubleAboveOne ∧ 1 ≤ doubleAboveOne
      ∧ |((1073741824 : Int) : ℚ) * doubleAboveOne| ≤ 2147483647
      ∧ ((toNativePixels winRelease identityHighDpi
            (some (window800x600 doubleAboveOne)) 1073741824).bind
          fun n => fromNativePixels winRelease identityHighDpi
            (some (window800x600 doubleAboveOne)) n) = some 1073741825 := by
  have hround : roundToDouble ((1073741824 : ℚ) + 1 / 2 + 1 / 2) = ((1073741825 : Int) : ℚ) := by
    rw [roundToDouble_eq _ 30 4503599631564800 (by norm_num)
      (by norm_num [abs_of_pos]) (by norm_num [abs_of_pos]) (by norm_num)]
    norm_num
  have hto : toNativePixels winRelease identityHighDpi
      (some (window800x600 doubleAboveOne)) 1073741824 = some 1073741825 := by
    rw [toNativePixels_eq _ _ _ _ rfl]
    have h1 : roundToDouble
        (((1073741824 : Int) : ℚ) * (window800x600 doubleAboveOne).devicePixelRatio)
        = 1073741824 + 1 / 2 := by
      rw [roundToDouble_eq _ 30 4503599629467648 (by norm_num)
        (by norm_num [window800x600, doubleAboveOne, abs_of_pos])
        (by norm_num [window800x600, doubleAboveOne, abs_of_pos])
        (by norm_num [window800x600, doubleAboveOne])]
      norm_num
    rw [h1, qRoundDouble_of_nonneg _ _ (by norm_num), hround,
      toInt32_intCast 1073741825 (by norm_num) (by norm_num)]
  have hfrom : fromNativePixels winRelease identityHighDpi
      (some (window800x600 doubleAboveOne)) 1073741825 = some 1073741825 := by
    rw [fromNativePixels_eq _ _ _ _ rfl]
    have h1 : roundToDouble
        (((1073741825 : Int) : ℚ) / (window800x600 doubleAboveOne).devicePixelRatio)
        = 1073741824 + 1 / 2 := by
      rw [roundToDouble_eq _ 30 4503599629467648 (by norm_num)
        (by norm_num [window800x600, doubleAboveOne, abs_of_pos])
        (by norm_num [window800x600, doubleAboveOne, abs_of_pos])
        (by norm_num [window800x600, doubleAboveOne, abs_lt])]
      norm_num
    rw [h1, qRoundDouble_of_nonneg _ _ (by norm_num), hround,
      toInt32_intCast 1073741825 (by norm_num) (by norm_num)]
  refine ⟨?_, by norm_num [doubleAboveOne], by norm_num [doubleAboveOne, abs_of_pos], ?_⟩
  · unfold isDouble
    rw [roundToDouble_eq doubleAboveOne 0 4503599629467648 (by norm_num)
      (by norm_num [doubleAboveOne, abs_of_pos]) (by norm_num [doubleAboveOne, abs_of_pos])
      (by norm_num [doubleAboveOne])]
    norm_num [doubleAboveOne]
  · rw [hto, Option.some_bind, hfrom]

/-- C16 (amended): in the build that does not use private toolkit headers, for every window
whose device pixel ratio `s` is an integer `>= 1` or is at least `1.0001`, and every integer
`v` with `|v * s|` at most `INT_MAX`, converting to native pixels and back is the identity:
`fromNativePixels(window, toNativePixels(window, v)) = v`. -/
theorem nativePixels_roundtrip (b : Build) (hd : QHighDpi) (win : QWindow) (v : Int)
    (hnp : b.FRAMELESSHELPER_CORE_NO_PRIVATE = true)
    (hs : (∃ n : Int, 1 ≤ n ∧ win.devicePixelRatio = (n : ℚ))
      ∨ 10001 / 10000 ≤ win.devicePixelRatio)
    (hfit : |(v : ℚ) * win.devicePixelRatio| ≤ 2147483647) :
    ((toNativePixels b hd (some win) v).bind fun n => fromNativePixels b hd (some win) n)
      = some v := by
  have hs1 : 1 ≤ win.devicePixelRatio := by
    rcases hs with ⟨n, hn, he⟩ | h
    · rw [he]; exact_mod_cast hn
    · linarith
  have hpos : 0 < win.devicePixelRatio := by linarith
  rw [toNativePixels_eq b hd win v hnp, Option.some_bind, fromNativePixels_eq b hd win _ hnp]
  have hr := qRoundDouble_near b _ hfit
  generalize qRoundDouble b (roundToDouble ((v : ℚ) * win.devicePixelRatio)) = r at hr
  -- the native value is itself within the range of `int`
  have hrange : |(r : ℚ)| ≤ 2147483647 := by
    rw [abs_le] at hr hfit ⊢
    have e1 : ((r : Int) : ℚ) < ((2147483648 : Int) : ℚ) := by push_cast; linarith
    have e2 : ((-2147483648 : Int) : ℚ) < ((r : Int) : ℚ) := by push_cast; linarith
    have e3 : r < 2147483648 := by exact_mod_cast e1
    have e4 : -2147483648 < r := by exact_mod_cast e2
    constructor
    · have : (-2147483647 : Int) ≤ r := by omega
      exact_mod_cast this
    · have : r ≤ (2147483647 : Int) := by omega
      exact_mod_cast this
  have hyfit : |(r : ℚ) / win.devicePixelRatio| ≤ 2147483647 := by
    rw [abs_div, abs_of_pos hpos]
    calc |(r : ℚ)| / win.devicePixelRatio ≤ |(r : ℚ)| / 1 :=
          div_le_div_of_nonneg_left (abs_nonneg _) (by norm_num) hs1
      _ ≤ 2147483647 := by rw [div_one]; exact hrange
  have hf := qRoundDouble_near b _ hyfit
  congr 1
  apply int_eq_of_abs_sub_lt_one
  rcases hs with ⟨n, hn, he⟩ | h
  · -- integral ratio: the native value is exactly `v * n`, the quotient exactly `v`
    have hrv : r = v * n := by
      apply int_eq_of_abs_sub_lt_one
      rw [he] at hr
      push_cast
      exact lt_of_le_of_lt hr (by norm_num)
    have hq : (r : ℚ) / win.devicePixelRatio = (v : ℚ) := by
      have hn0 : (n : ℚ) ≠ 0 := by
        have : (0 : ℚ) < (n : ℚ) := by exact_mod_cast (by omega : (0 : Int) < n)
        exact ne_of_gt this
      rw [hrv, he]
      push_cast
      field_simp
    rw [hq] at hf ⊢
    exact lt_of_le_of_lt hf (by norm_num)
  · -- ratio at least 1.0001: the quotient is within 0.49996 of `v`
    have hq : |(r : ℚ) / win.devicePixelRatio - (v : ℚ)|
        ≤ (1 / 2 + 1 / 1048576) * (10000 / 10001) := by
      have e : (r : ℚ) / win.devicePixelRatio - (v : ℚ)
          = ((r : ℚ) - (v : ℚ) * win.devicePixelRatio) / win.devicePixelRatio := by
        field_simp
        ring
      rw [e, abs_div, abs_of_pos hpos, div_le_iff₀ hpos]
      calc |(r : ℚ) - (v : ℚ) * win.devicePixelRatio| ≤ 1 / 2 + 1 / 1048576 := hr
        _ ≤ (1 / 2 + 1 / 1048576) * (10000 / 10001) * win.devicePixelRatio := by
          have : (1 : ℚ) ≤ 10000 / 10001 * win.devicePixelRatio := by linarith
          nlinarith
    rw [abs_le] at hq hf
    rw [abs_lt]
    constructor <;> norm_num at hq hf ⊢ <;> linarith

/-- The amended C16 for 7 logical pixels at device pixel ratio 3/2: 11 native pixels, and
back to 7. -/
theorem nativePixels_roundtrip_witness :
    ((toNativePixels winRelease identityHighDpi (some (window800x600 (3 / 2))) 7).bind
      fun n => fromNativePixels winRelease identityHighDpi (some (window800x600 (3 / 2))) n)
      = some 7 :=
  nativePixels_roundtrip winRelease identityHighDpi (window800x600 (3 / 2)) 7 rfl
    (Or.inr (by norm_num [window800x600])) (by norm_num [window800x600, abs_of_pos])

/-! ## Theorems: the resize threshold in physical pixels -/

end FramelessHelper
